import Mathlib

/-!
Verification development for the ai-studio generation orchestration engine
(`app/services/orchestration_service.py`, `app/services/ugc_orchestration_service.py`,
`app/services/video_tasks.py`, `app/services/openai_service.py`, `app/core/utils.py`,
`app/api/v1/endpoints/video.py`).

The Python code is shallowly embedded: every external call (OpenAI chat, vision,
moderation, video job create/status/download, Supabase insert/update/upload, the
local file system) is an oracle value supplied through an environment structure;
each fallible call either returns a value or raises an exception message
(`ExcRes`).  Each routine is translated into a Lean function that returns the
ordered list of observable events it performs (database write attempts, moderation
checks, sanitize calls, job submissions, local file writes, storage uploads)
together with the exception, if any, escaping the routine.
-/

namespace AIStudio

/-- Outcome of one fallible Python call: a normal return or a raised
exception carrying its message (`str(e)`). -/
inductive ExcRes (α : Type) where
  | ok (val : α)
  | exc (msg : String)
deriving Repr, DecidableEq

/-- Whether the call returned normally. -/
def ExcRes.isOk {α : Type} : ExcRes α → Bool
  | .ok _ => true
  | .exc _ => false

/-- Parsed QA agent response, as consumed by `_run_qa_loop` /
`_run_ugc_qa_loop`: the code reads `qa_res.get("score", 0)` and
`qa_res.get("violations")` from the extracted JSON dict, so both fields are
optional.  `violations` is kept opaque (it is only serialized back into the
fix prompt). -/
structure QARes where
  score : Option Int
  violations : Option String
deriving Repr, DecidableEq

/-- Trace of one QA-loop run: the scoring calls in order, each recorded as
(candidate that was scored, outcome of the chat call plus JSON extraction),
the correction ("fix") calls in order, and the value returned by the loop
(or the exception aborting it). -/
structure QATrace where
  scoreCalls : List (String × ExcRes QARes)
  fixCalls : List (ExcRes String)
  result : ExcRes (String × QARes)
deriving Repr, DecidableEq

/-- Body of `OrchestrationService._run_qa_loop` (orchestration_service.py
lines 331-362): `for i in range(3)` — score the current candidate; if the
score is at least 80 return `(current_prompt, qa_res)`; otherwise, when
`i < 2`, one correction call replaces the candidate; after the loop the last
candidate is returned with the last scoring result.  `score i` / `fix i` are
the oracle outcomes of the i-th scoring / correction call; the fuel argument
counts the remaining loop iterations (`i < 2` holds exactly when more than
one iteration remains). -/
def runQaLoopGo (score : Nat → ExcRes QARes) (fix : Nat → ExcRes String) :
    Nat → Nat → String → QATrace
  | _, 0, _ =>
    -- `range(3)` always yields an iteration; this case is unreachable from
    -- the entry point below.
    ⟨[], [], ExcRes.exc "range exhausted"⟩
  | i, fuel + 1, current =>
    match score i with
    | ExcRes.exc m => ⟨[(current, ExcRes.exc m)], [], ExcRes.exc m⟩
    | ExcRes.ok r =>
      if 80 ≤ r.score.getD 0 then
        ⟨[(current, ExcRes.ok r)], [], ExcRes.ok (current, r)⟩
      else if fuel = 0 then
        -- last iteration: `i < 2` is false, the loop ends and the code
        -- returns `current_prompt, qa_res`
        ⟨[(current, ExcRes.ok r)], [], ExcRes.ok (current, r)⟩
      else
        match fix i with
        | ExcRes.exc m => ⟨[(current, ExcRes.ok r)], [ExcRes.exc m], ExcRes.exc m⟩
        | ExcRes.ok next =>
          let t := runQaLoopGo score fix (i + 1) fuel next
          ⟨(current, ExcRes.ok r) :: t.scoreCalls, ExcRes.ok next :: t.fixCalls, t.result⟩

/-- `OrchestrationService._run_qa_loop` applied to an initial candidate:
three loop iterations, threshold 80. -/
def _run_qa_loop (score : Nat → ExcRes QARes) (fix : Nat → ExcRes String)
    (initial : String) : QATrace :=
  runQaLoopGo score fix 0 3 initial

/-- `UgcOrchestrationService._run_ugc_qa_loop` (ugc_orchestration_service.py
lines 197-231): a single scoring call with threshold 85; on failure a single
correction call whose output is returned unscored, paired with the QA result
of the original candidate. -/
def _run_ugc_qa_loop (score1 : ExcRes QARes) (fix1 : ExcRes String)
    (initial : String) : QATrace :=
  match score1 with
  | ExcRes.exc m => ⟨[(initial, ExcRes.exc m)], [], ExcRes.exc m⟩
  | ExcRes.ok r =>
    if 85 ≤ r.score.getD 0 then
      ⟨[(initial, ExcRes.ok r)], [], ExcRes.ok (initial, r)⟩
    else
      match fix1 with
      | ExcRes.exc m => ⟨[(initial, ExcRes.ok r)], [ExcRes.exc m], ExcRes.exc m⟩
      | ExcRes.ok c => ⟨[(initial, ExcRes.ok r)], [ExcRes.ok c], ExcRes.ok (c, r)⟩

/-- Unfolding equation for the zero-fuel (unreachable) case. -/
theorem runQaLoopGo_zero (score : Nat → ExcRes QARes) (fix : Nat → ExcRes String)
    (i : Nat) (current : String) :
    runQaLoopGo score fix i 0 current = ⟨[], [], ExcRes.exc "range exhausted"⟩ := rfl

/-- Unfolding equation for one loop iteration. -/
theorem runQaLoopGo_succ (score : Nat → ExcRes QARes) (fix : Nat → ExcRes String)
    (i fuel : Nat) (current : String) :
    runQaLoopGo score fix i (fuel + 1) current =
      match score i with
      | ExcRes.exc m => ⟨[(current, ExcRes.exc m)], [], ExcRes.exc m⟩
      | ExcRes.ok r =>
        if 80 ≤ r.score.getD 0 then
          ⟨[(current, ExcRes.ok r)], [], ExcRes.ok (current, r)⟩
        else if fuel = 0 then
          ⟨[(current, ExcRes.ok r)], [], ExcRes.ok (current, r)⟩
        else
          match fix i with
          | ExcRes.exc m => ⟨[(current, ExcRes.ok r)], [ExcRes.exc m], ExcRes.exc m⟩
          | ExcRes.ok next =>
            let t := runQaLoopGo score fix (i + 1) fuel next
            ⟨(current, ExcRes.ok r) :: t.scoreCalls, ExcRes.ok next :: t.fixCalls,
              t.result⟩ := rfl

theorem qa_scoreCalls_le (score : Nat → ExcRes QARes) (fix : Nat → ExcRes String) :
    ∀ fuel i current, (runQaLoopGo score fix i fuel current).scoreCalls.length ≤ fuel := by
  intro fuel
  induction fuel with
  | zero => intro i current; rw [runQaLoopGo_zero]; simp
  | succ n ih =>
    intro i current
    rw [runQaLoopGo_succ]
    split
    · simp
    · split
      · simp
      · split
        · simp
        · split
          · simp
          · simpa using ih (i + 1) _

theorem qa_fixCalls_le (score : Nat → ExcRes QARes) (fix : Nat → ExcRes String) :
    ∀ fuel i current, (runQaLoopGo score fix i fuel current).fixCalls.length ≤ fuel - 1 := by
  intro fuel
  induction fuel with
  | zero => intro i current; rw [runQaLoopGo_zero]; simp
  | succ n ih =>
    intro i current
    rw [runQaLoopGo_succ]
    split
    · simp
    · split
      · simp
      · split
        · simp
        · split
          · rename_i hn _
            simp only [QATrace.mk.injEq]
            simp
            omega
          · rename_i r0 hs hn next hf
            have := ih (i + 1) next
            simp only []
            simp
            omega

theorem qa_result_is_last (score : Nat → ExcRes QARes) (fix : Nat → ExcRes String) :
    ∀ fuel i current p r,
      (runQaLoopGo score fix i fuel current).result = ExcRes.ok (p, r) →
      (runQaLoopGo score fix i fuel current).scoreCalls.getLast? =
        some (p, ExcRes.ok r) := by
  intro fuel
  induction fuel with
  | zero => intro i current p r h; rw [runQaLoopGo_zero] at h; exact absurd h (by simp)
  | succ n ih =>
    intro i current p r h
    rw [runQaLoopGo_succ] at h ⊢
    revert h
    split
    · intro h; exact absurd h (by simp)
    · split
      · intro h
        simp only [ExcRes.ok.injEq, Prod.mk.injEq] at h
        simp [h.1, h.2]
      · split
        · intro h
          simp only [ExcRes.ok.injEq, Prod.mk.injEq] at h
          simp [h.1, h.2]
        · split
          · intro h; exact absurd h (by simp)
          · intro h
            simp only [] at h ⊢
            have hlast := ih (i + 1) _ p r h
            rcases hsc : (runQaLoopGo score fix (i + 1) n _).scoreCalls with _ | ⟨q, qs⟩
            · rw [hsc] at hlast; exact absurd hlast (by simp)
            · rw [hsc] at hlast
              simpa [List.getLast?_cons_cons] using hlast

theorem qa_pass_or_exhausted (score : Nat → ExcRes QARes) (fix : Nat → ExcRes String) :
    ∀ fuel i current p r,
      (runQaLoopGo score fix i fuel current).result = ExcRes.ok (p, r) →
      80 ≤ r.score.getD 0 ∨
        (runQaLoopGo score fix i fuel current).scoreCalls.length = fuel := by
  intro fuel
  induction fuel with
  | zero => intro i current p r h; rw [runQaLoopGo_zero] at h; exact absurd h (by simp)
  | succ n ih =>
    intro i current p r h
    rw [runQaLoopGo_succ] at h ⊢
    revert h
    split
    · intro h; exact absurd h (by simp)
    · split
      · intro h
        simp only [ExcRes.ok.injEq, Prod.mk.injEq] at h
        rename_i r0 hs
        left
        rw [← h.2]
        exact hs
      · split
        · intro h
          rename_i hn
          right
          simp [hn]
        · split
          · intro h; exact absurd h (by simp)
          · intro h
            simp only [] at h ⊢
            rcases ih (i + 1) _ p r h with hp | hfull
            · exact Or.inl hp
            · right
              simp [hfull]

theorem qa_head_candidate (score : Nat → ExcRes QARes) (fix : Nat → ExcRes String) :
    ∀ fuel i current, 0 < fuel →
      ∃ o, (runQaLoopGo score fix i fuel current).scoreCalls.head? = some (current, o) := by
  intro fuel
  cases fuel with
  | zero => intro i current h; omega
  | succ n =>
    intro i current _
    rw [runQaLoopGo_succ]
    split
    · exact ⟨_, rfl⟩
    · split
      · exact ⟨_, rfl⟩
      · split
        · exact ⟨_, rfl⟩
        · split
          · exact ⟨_, rfl⟩
          · exact ⟨_, rfl⟩

theorem qa_rescore_chain (score : Nat → ExcRes QARes) (fix : Nat → ExcRes String) :
    ∀ fuel i current k,
      k + 1 < (runQaLoopGo score fix i fuel current).scoreCalls.length →
      ∃ c, fix (i + k) = ExcRes.ok c ∧
        ((runQaLoopGo score fix i fuel current).scoreCalls.getD (k + 1)
          ("", ExcRes.exc "")).1 = c := by
  intro fuel
  induction fuel with
  | zero => intro i current k h; rw [runQaLoopGo_zero] at h; simp at h
  | succ n ih =>
    intro i current k h
    rw [runQaLoopGo_succ] at h ⊢
    revert h
    split
    · intro h; simp at h
    · split
      · intro h; simp at h
      · split
        · intro h; simp at h
        · split
          · intro h; simp at h
          · intro h
            simp only [List.length_cons] at h ⊢
            rename_i r0 hs hn next hf
            cases k with
            | zero =>
              refine ⟨next, by simpa using hf, ?_⟩
              have hn0 : 0 < n := by omega
              obtain ⟨o, ho⟩ := qa_head_candidate score fix n (i + 1) next hn0
              simp only [List.getD_cons_succ]
              have hget : (runQaLoopGo score fix (i + 1) n next).scoreCalls.getD 0
                  ("", ExcRes.exc "") = (next, o) := by
                rcases hsc : (runQaLoopGo score fix (i + 1) n next).scoreCalls with
                  _ | ⟨q, qs⟩
                · rw [hsc] at ho; simp at ho
                · rw [hsc] at ho
                  simp only [List.head?_cons, Option.some.injEq] at ho
                  simp [ho]
              rw [hget]
            | succ k =>
              have hlt : k + 1 < (runQaLoopGo score fix (i + 1) n next).scoreCalls.length := by
                omega
              obtain ⟨c, hc1, hc2⟩ := ih (i + 1) next k hlt
              refine ⟨c, ?_, ?_⟩
              · have : i + 1 + k = i + (k + 1) := by omega
                rw [← this]; exact hc1
              · simpa [List.getD_cons_succ] using hc2

/-- C2: for the promo/fashion QA loop (`_run_qa_loop`), each attempt scores the
current candidate; a score of at least 80 stops the loop at once, returning that
candidate with its scoring result; otherwise, while attempts remain, one
correction call produces the candidate scored on the next attempt.  Any run
performs at most 3 scoring calls and at most 2 correction calls, and the value
returned always pairs the last scored candidate with the result computed for
that same candidate (in particular on exhaustion). -/
theorem qa_loop_bounded_exact (score : Nat → ExcRes QARes) (fix : Nat → ExcRes String)
    (initial : String) :
    (_run_qa_loop score fix initial).scoreCalls.length ≤ 3 ∧
    (_run_qa_loop score fix initial).fixCalls.length ≤ 2 ∧
    (∀ p r, (_run_qa_loop score fix initial).result = ExcRes.ok (p, r) →
      (_run_qa_loop score fix initial).scoreCalls.getLast? = some (p, ExcRes.ok r) ∧
      (80 ≤ r.score.getD 0 ∨ (_run_qa_loop score fix initial).scoreCalls.length = 3)) ∧
    (∀ r, score 0 = ExcRes.ok r → 80 ≤ r.score.getD 0 →
      (_run_qa_loop score fix initial).result = ExcRes.ok (initial, r) ∧
      (_run_qa_loop score fix initial).scoreCalls = [(initial, ExcRes.ok r)] ∧
      (_run_qa_loop score fix initial).fixCalls = []) ∧
    (∀ k, k + 1 < (_run_qa_loop score fix initial).scoreCalls.length →
      ∃ c, fix k = ExcRes.ok c ∧
        ((_run_qa_loop score fix initial).scoreCalls.getD (k + 1)
          ("", ExcRes.exc "")).1 = c) := by
  refine ⟨qa_scoreCalls_le score fix 3 0 initial,
    qa_fixCalls_le score fix 3 0 initial, ?_, ?_, ?_⟩
  · intro p r h
    exact ⟨qa_result_is_last score fix 3 0 initial p r h,
      qa_pass_or_exhausted score fix 3 0 initial p r h⟩
  · intro r h hs
    unfold _run_qa_loop
    rw [show (3 : Nat) = 2 + 1 from rfl, runQaLoopGo_succ, h]
    simp [hs]
  · intro k hk
    have := qa_rescore_chain score fix 3 0 initial k hk
    simpa using this

/-- Concrete scoring oracle for the witness: 60 on the first attempt,
90 afterwards, with violation list "A". -/
def qaScoresW : Nat → ExcRes QARes :=
  fun n => ExcRes.ok ⟨some (if n = 0 then 60 else 90), some "A"⟩

/-- Concrete correction oracle for the witness. -/
def qaFixesW : Nat → ExcRes String := fun _ => ExcRes.ok "fixed"

/-- Witness for `qa_loop_bounded_exact` at the spec example: scores [60, 90]
stop the loop after the second attempt and return the corrected candidate
with the score-90 result. -/
theorem qa_loop_bounded_exact_witness :
    (_run_qa_loop qaScoresW qaFixesW "p0").scoreCalls.length ≤ 3 ∧
    (_run_qa_loop qaScoresW qaFixesW "p0").scoreCalls.getLast? =
      some ("fixed", ExcRes.ok ⟨some 90, some "A"⟩) := by
  have h := qa_loop_bounded_exact qaScoresW qaFixesW "p0"
  exact ⟨h.1, (h.2.2.1 "fixed" ⟨some 90, some "A"⟩ (by decide)).1⟩

/-- C3: for the ugc QA loop (`_run_ugc_qa_loop`, maxAttempts 1, threshold 85),
exactly one scoring call is made and it scores the initial candidate; a passing
score returns the initial candidate with its result and makes no correction
call; a failing score makes exactly one correction call and returns the
corrected candidate without re-scoring it, paired with the QA result computed
for the pre-correction candidate. -/
theorem ugc_qa_loop_single_attempt (score1 : ExcRes QARes) (fix1 : ExcRes String)
    (initial : String) :
    (_run_ugc_qa_loop score1 fix1 initial).scoreCalls.length = 1 ∧
    (∀ x ∈ (_run_ugc_qa_loop score1 fix1 initial).scoreCalls, x.1 = initial) ∧
    (_run_ugc_qa_loop score1 fix1 initial).fixCalls.length ≤ 1 ∧
    (∀ r, score1 = ExcRes.ok r → 85 ≤ r.score.getD 0 →
      (_run_ugc_qa_loop score1 fix1 initial).result = ExcRes.ok (initial, r) ∧
      (_run_ugc_qa_loop score1 fix1 initial).fixCalls = []) ∧
    (∀ r c, score1 = ExcRes.ok r → r.score.getD 0 < 85 → fix1 = ExcRes.ok c →
      (_run_ugc_qa_loop score1 fix1 initial).result = ExcRes.ok (c, r) ∧
      (_run_ugc_qa_loop score1 fix1 initial).fixCalls = [ExcRes.ok c] ∧
      (_run_ugc_qa_loop score1 fix1 initial).scoreCalls = [(initial, ExcRes.ok r)]) := by
  unfold _run_ugc_qa_loop
  rcases score1 with r | m
  case exc =>
    refine ⟨by simp, by simp, by simp, ?_, ?_⟩
    · intro r h; exact absurd h (by simp)
    · intro r c h; exact absurd h (by simp)
  by_cases hs : 85 ≤ r.score.getD 0
  · refine ⟨by simp [hs], by simp [hs], by simp [hs], ?_, ?_⟩
    · intro r0 h _
      simp only [ExcRes.ok.injEq] at h
      subst h
      simp [hs]
    · intro r0 c h hlt _
      simp only [ExcRes.ok.injEq] at h
      subst h
      omega
  · rcases fix1 with c | m
    · refine ⟨by simp [hs], by simp [hs], by simp [hs], ?_, ?_⟩
      · intro r0 h hge
        simp only [ExcRes.ok.injEq] at h
        subst h
        omega
      · intro r0 c0 h hlt hc
        simp only [ExcRes.ok.injEq] at h hc
        subst h
        subst hc
        simp [hs]
    · refine ⟨by simp [hs], by simp [hs], by simp [hs], ?_, ?_⟩
      · intro r0 h hge
        simp only [ExcRes.ok.injEq] at h
        subst h
        omega
      · intro r0 c h _ hc; exact absurd hc (by simp)

/-- Witness for `ugc_qa_loop_single_attempt`: a failing score of 70 yields
the corrected candidate paired with the pre-correction QA result. -/
theorem ugc_qa_loop_single_attempt_witness :
    (_run_ugc_qa_loop (ExcRes.ok ⟨some 70, some "V"⟩) (ExcRes.ok "fixedU") "u0").result =
      ExcRes.ok ("fixedU", ⟨some 70, some "V"⟩) ∧
    (_run_ugc_qa_loop (ExcRes.ok ⟨some 70, some "V"⟩) (ExcRes.ok "fixedU") "u0").scoreCalls =
      [("u0", ExcRes.ok ⟨some 70, some "V"⟩)] := by
  have h := ugc_qa_loop_single_attempt (ExcRes.ok ⟨some 70, some "V"⟩)
    (ExcRes.ok "fixedU") "u0"
  have h5 := h.2.2.2.2 ⟨some 70, some "V"⟩ "fixedU" rfl (by decide) rfl
  exact ⟨h5.1, h5.2.2⟩

/-! ### Persistence writes and observable events -/

/-- Call sites of `db_service.insert_record` / `update_record` in the
orchestration code, used to tag each write attempt in a trace. -/
inductive Site where
  | pendInsert
  | imgReassert
  | imgCompleted
  | imgFail
  | flowFail
  | taskFail
  | pollCompleted
  | pollStorageFail
  | pollRemoteFail
  | pollTimeout
  | pollOuter
  | remixCompleted
  | remixOuter
deriving Repr, DecidableEq

/-- One attempted `insert_record`/`update_record` call: the dict of fields
passed to it (in source order) and whether the call returned normally
(`ok = false` models `DatabaseError` being raised, in which case the row is
not changed — `update` either returns the updated row or fails without
effect). -/
structure WriteAttempt where
  site : Site
  fields : List (String × String)
  ok : Bool
deriving Repr, DecidableEq

/-- Observable events of one orchestration run, in program order. -/
inductive Ev where
  | write (w : WriteAttempt)
  | modCheck (input : String)
  | sanitizeCall (input : String)
  | submit (prompt : String)
  | localSave (path : String) (content : String)
  | uploadBlob (bucket : String) (path : String)
deriving Repr, DecidableEq

/-- The write attempts among a list of events. -/
def writesOf (es : List Ev) : List WriteAttempt :=
  es.filterMap fun e => match e with | Ev.write w => some w | _ => none

/-- Result of running one routine: its events in order and the exception
escaping it, if any. -/
structure RunOut where
  events : List Ev
  err : Option String
deriving Repr, DecidableEq

def RunOut.writes (o : RunOut) : List WriteAttempt := writesOf o.events

/-- Prepend events that happened before the routine fragment `o`. -/
def RunOut.withPre (o : RunOut) (pre : List Ev) : RunOut := ⟨pre ++ o.events, o.err⟩

/-- A Python `try: o except Exception as m: handler m` block. -/
def RunOut.handleWith (o : RunOut) (handler : String → RunOut) : RunOut :=
  match o.err with
  | none => o
  | some m => ⟨o.events ++ (handler m).events, (handler m).err⟩

/-- One `update_record` call: emits the write attempt; a raised
`DatabaseError` (oracle `ExcRes.exc`) escapes. -/
def mkWrite (site : Site) (fields : List (String × String)) (res : ExcRes Unit) : RunOut :=
  match res with
  | ExcRes.ok _ => ⟨[Ev.write ⟨site, fields, true⟩], none⟩
  | ExcRes.exc m => ⟨[Ev.write ⟨site, fields, false⟩], some m⟩

/-- The `{"status": "failed", "error_message": m}` update dict used by every
failure handler in the orchestration code. -/
def failedFields (m : String) : List (String × String) :=
  [("status", "failed"), ("error_message", m)]

/-! ### HTTP layer: `request_with_retry` and `get_video_job_status` -/

/-- A `requests.Response` as consumed by `openai_service`: HTTP status code,
the decoded JSON body fields read by the poller (`status`, `error`), and the
raw text used in error messages. -/
structure HttpResp where
  statusCode : Nat
  status : Option String
  error : Option String
  text : String
deriving Repr, DecidableEq

/-- The JSON body returned by `get_video_job_status`: the poller reads
`status_data.get("status")` and `status_data.get("error", "Unknown error")`. -/
structure StatusData where
  status : Option String
  error : Option String
deriving Repr, DecidableEq

/-- `app/core/utils.py` lines 136-146, `request_with_retry`:
`for i in range(max_retries)`, return the response on success; on a
`RequestException`, re-raise it if this was the last attempt, otherwise back
off and retry.  The final `raise Exception("Request failed after retries")`
is reachable only with `max_retries = 0`.  `attempts i` is the outcome of
the i-th underlying `requests.request` call. -/
def requestWithRetryGo (attempts : Nat → ExcRes HttpResp) : Nat → Nat → ExcRes HttpResp
  | _, 0 => ExcRes.exc "Request failed after retries"
  | i, fuel + 1 =>
    match attempts i with
    | ExcRes.ok r => ExcRes.ok r
    | ExcRes.exc m =>
      if fuel = 0 then ExcRes.exc m else requestWithRetryGo attempts (i + 1) fuel

/-- `request_with_retry` with its default `max_retries = 3`. -/
def request_with_retry (attempts : Nat → ExcRes HttpResp) : ExcRes HttpResp :=
  requestWithRetryGo attempts 0 3

/-- `openai_service.get_video_job_status` (openai_service.py lines 131-144):
one `request_with_retry` call; a status code of 300 or more raises
`AIServiceError`, and the surrounding `except` wraps any exception into
`AIServiceError("OpenAI video status check failed: " + str(e))` (so the
in-`try` raise gets the prefix twice). -/
def get_video_job_status (attempts : Nat → ExcRes HttpResp) : ExcRes StatusData :=
  match request_with_retry attempts with
  | ExcRes.exc m => ExcRes.exc ("OpenAI video status check failed: " ++ m)
  | ExcRes.ok r =>
    if 300 ≤ r.statusCode then
      ExcRes.exc ("OpenAI video status check failed: " ++
        ("OpenAI video status check failed: " ++ r.text))
    else ExcRes.ok ⟨r.status, r.error⟩

/-! ### `poll_and_save_video` (orchestration_service.py lines 461-533) -/

/-- Oracle for one run of `poll_and_save_video`.  `statusAttempts n` are the
request-level outcomes of the n-th loop iteration's status fetch; `fuel` is
the number of loop iterations permitted by
`while time.time() - start_time < POLL_MAX_MIN * 60` (finite because each
iteration sleeps `POLL_INTERVAL_SEC`); the remaining fields are the outcomes
of the named external calls, one call site each (each site runs at most once
per poll because every branch returns or raises). -/
structure PollEnv where
  statusAttempts : Nat → Nat → ExcRes HttpResp
  fuel : Nat
  download : ExcRes String
  upload : ExcRes String
  titleGen : ExcRes String
  dbCompleted : ExcRes Unit
  dbStorageFail : ExcRes Unit
  dbRemoteFail : ExcRes Unit
  dbTimeout : ExcRes Unit
  dbOuter : ExcRes Unit

/-- The `status == "completed"` branch of `poll_and_save_video` (lines
475-515): download, upload, best-effort title, completed update, all inside
an inner `try` whose handler writes
`{"status": "failed", "error_message": "Video storage failed: ..."}`.
A failure of the completed update itself is also caught by that handler. -/
def pollVideoCompleted (env : PollEnv) (dbId prompt : String) : RunOut :=
  match env.download with
  | ExcRes.exc m =>
    mkWrite Site.pollStorageFail (failedFields ("Video storage failed: " ++ m))
      env.dbStorageFail
  | ExcRes.ok _bytes =>
    let upEv := Ev.uploadBlob "ai_videos" (dbId ++ ".mp4")
    match env.upload with
    | ExcRes.exc m =>
      (mkWrite Site.pollStorageFail (failedFields ("Video storage failed: " ++ m))
        env.dbStorageFail).withPre [upEv]
    | ExcRes.ok url =>
      let title := match env.titleGen with
        | ExcRes.ok t => t
        | ExcRes.exc _ => "Generated Video"
      let cf : List (String × String) :=
        [("status", "completed"), ("video_url", url), ("video_prompt", prompt),
          ("title", title)]
      match env.dbCompleted with
      | ExcRes.ok _ => ⟨[upEv, Ev.write ⟨Site.pollCompleted, cf, true⟩], none⟩
      | ExcRes.exc m =>
        (mkWrite Site.pollStorageFail (failedFields ("Video storage failed: " ++ m))
          env.dbStorageFail).withPre [upEv, Ev.write ⟨Site.pollCompleted, cf, false⟩]

/-- The `while` loop plus the post-loop timeout write of
`poll_and_save_video`, all inside the outer `try`.  A status fetch that
raises escapes to the outer handler; a remote `failed` status writes
`{"status": "failed", "error_message": str(error), "video_prompt": prompt}`;
any other status sleeps and retries. -/
def pollVideoInner (env : PollEnv) (dbId prompt : String) : Nat → Nat → RunOut
  | _, 0 => mkWrite Site.pollTimeout (failedFields "Timed out") env.dbTimeout
  | n, fuel + 1 =>
    match get_video_job_status (env.statusAttempts n) with
    | ExcRes.exc m => ⟨[], some m⟩
    | ExcRes.ok sd =>
      if sd.status = some "completed" then pollVideoCompleted env dbId prompt
      else if sd.status = some "failed" then
        mkWrite Site.pollRemoteFail
          [("status", "failed"), ("error_message", sd.error.getD "Unknown error"),
            ("video_prompt", prompt)]
          env.dbRemoteFail
      else pollVideoInner env dbId prompt (n + 1) fuel

/-- `poll_and_save_video`: the loop inside a `try` whose handler performs one
more `{"status": "failed", "error_message": str(e)}` update. -/
def poll_and_save_video (env : PollEnv) (dbId prompt : String) : RunOut :=
  (pollVideoInner env dbId prompt 0 env.fuel).handleWith
    (fun m => mkWrite Site.pollOuter (failedFields m) env.dbOuter)

/-! ### `poll_and_save_remix` (orchestration_service.py lines 402-457) -/

/-- Oracle for `poll_and_save_remix`; `localSave` is the outcome of
`os.makedirs` + `open(local_path, "wb").write`. -/
structure RemixPollEnv where
  statusAttempts : Nat → Nat → ExcRes HttpResp
  fuel : Nat
  download : ExcRes String
  localSave : ExcRes Unit
  upload : ExcRes String
  dbCompleted : ExcRes Unit
  dbOuter : ExcRes Unit

/-- The `status == "completed"` branch of `poll_and_save_remix` (lines
415-445): download, save to `remixes/{id}.mp4` under the working directory,
upload to `ai_videos` under `remix_{id}.mp4`, completed update.  There is no
inner `try`: any failure escapes to the routine's handler. -/
def pollRemixCompleted (env : RemixPollEnv) (dbId prompt : String) : RunOut :=
  match env.download with
  | ExcRes.exc m => ⟨[], some m⟩
  | ExcRes.ok vbytes =>
    match env.localSave with
    | ExcRes.exc m => ⟨[], some m⟩
    | ExcRes.ok _ =>
      let saveEv := Ev.localSave ("remixes/" ++ dbId ++ ".mp4") vbytes
      let upEv := Ev.uploadBlob "ai_videos" ("remix_" ++ dbId ++ ".mp4")
      match env.upload with
      | ExcRes.exc m => ⟨[saveEv, upEv], some m⟩
      | ExcRes.ok url =>
        let cf : List (String × String) :=
          [("status", "completed"), ("video_url", url), ("video_prompt", prompt),
            ("title", "Remixed Video")]
        match env.dbCompleted with
        | ExcRes.ok _ => ⟨[saveEv, upEv, Ev.write ⟨Site.remixCompleted, cf, true⟩], none⟩
        | ExcRes.exc m => ⟨[saveEv, upEv, Ev.write ⟨Site.remixCompleted, cf, false⟩], some m⟩

/-- Remix poll loop: remote `failed` raises
`AIServiceError("OpenAI remix job failed: " + error)` and loop exhaustion
raises `AIServiceError("Remix polling timed out")`; both escape to the
routine's handler. -/
def pollRemixInner (env : RemixPollEnv) (dbId prompt : String) : Nat → Nat → RunOut
  | _, 0 => ⟨[], some "Remix polling timed out"⟩
  | n, fuel + 1 =>
    match get_video_job_status (env.statusAttempts n) with
    | ExcRes.exc m => ⟨[], some m⟩
    | ExcRes.ok sd =>
      if sd.status = some "completed" then pollRemixCompleted env dbId prompt
      else if sd.status = some "failed" then
        ⟨[], some ("OpenAI remix job failed: " ++ sd.error.getD "Unknown error")⟩
      else pollRemixInner env dbId prompt (n + 1) fuel

/-- `poll_and_save_remix`: the loop inside a `try` whose handler performs one
`{"status": "failed", "error_message": str(e)}` update. -/
def poll_and_save_remix (env : RemixPollEnv) (dbId prompt : String) : RunOut :=
  (pollRemixInner env dbId prompt 0 env.fuel).handleWith
    (fun m => mkWrite Site.remixOuter (failedFields m) env.dbOuter)

/-! ### Variant flows -/

/-- Shared moderation → sanitize → resize → submit → poll tail of the
promo/fashion flows (orchestration_service.py lines 237-252 and 192-206) and
the ugc flow (ugc_orchestration_service.py lines 47-62): if
`moderation_check` returned `true` (it never raises — transport failures are
swallowed and reported as not flagged), exactly one `_sanitize_prompt` call
replaces the prompt, with no second moderation check; then
`process_and_resize_image`, `create_video_job`, `poll_and_save_video`. -/
def submitAndPoll (resize createJob : ExcRes String) (pollEnv : PollEnv)
    (dbId p : String) : RunOut :=
  match resize with
  | ExcRes.exc m => ⟨[], some m⟩
  | ExcRes.ok _ =>
    match createJob with
    | ExcRes.exc m => ⟨[Ev.submit p], some m⟩
    | ExcRes.ok _jobId => (poll_and_save_video pollEnv dbId p).withPre [Ev.submit p]

def moderateAndSubmit (flagged : Bool) (sanitizeRes resize createJob : ExcRes String)
    (pollEnv : PollEnv) (dbId finalPrompt : String) : RunOut :=
  if flagged then
    match sanitizeRes with
    | ExcRes.exc m => ⟨[Ev.modCheck finalPrompt, Ev.sanitizeCall finalPrompt], some m⟩
    | ExcRes.ok p2 =>
      (submitAndPoll resize createJob pollEnv dbId p2).withPre
        [Ev.modCheck finalPrompt, Ev.sanitizeCall finalPrompt]
  else (submitAndPoll resize createJob pollEnv dbId finalPrompt).withPre
    [Ev.modCheck finalPrompt]

/-- Oracle for one promo or fashion flow run: the four agent-chain calls,
the QA loop call oracles, the moderation verdict, and the downstream call
outcomes. -/
structure AgentFlowEnv where
  concept : ExcRes String
  visual : ExcRes String
  audio : ExcRes String
  assembly : ExcRes String
  qaScore : Nat → ExcRes QARes
  qaFix : Nat → ExcRes String
  flagged : Bool
  sanitize : ExcRes String
  resize : ExcRes String
  createJob : ExcRes String
  poll : PollEnv
  dbFlowFail : ExcRes Unit

/-- Body of the promo/fashion `try` block: concept → visual → audio →
assembly agents (any raise aborts), `_run_qa_loop`, then
`moderateAndSubmit`.  None of the agent or QA calls writes to the
database. -/
def agentFlowBody (env : AgentFlowEnv) (dbId : String) : RunOut :=
  match env.concept with
  | ExcRes.exc m => ⟨[], some m⟩
  | ExcRes.ok _c =>
    match env.visual with
    | ExcRes.exc m => ⟨[], some m⟩
    | ExcRes.ok _v =>
      match env.audio with
      | ExcRes.exc m => ⟨[], some m⟩
      | ExcRes.ok _a =>
        match env.assembly with
        | ExcRes.exc m => ⟨[], some m⟩
        | ExcRes.ok asm =>
          match (_run_qa_loop env.qaScore env.qaFix asm).result with
          | ExcRes.exc m => ⟨[], some m⟩
          | ExcRes.ok (finalPrompt, _qaRes) =>
            moderateAndSubmit env.flagged env.sanitize env.resize env.createJob
              env.poll dbId finalPrompt

/-- `run_promo_orchestration_flow` (lines 212-256): the body inside a `try`
whose handler performs one failed update. -/
def run_promo_orchestration_flow (env : AgentFlowEnv) (dbId : String) : RunOut :=
  (agentFlowBody env dbId).handleWith
    (fun m => mkWrite Site.flowFail (failedFields m) env.dbFlowFail)

/-- `run_fashion_orchestration_flow` (lines 166-210) is textually parallel to
the promo flow (same structure, different agent prompts — which live in the
oracle), so it shares the embedding. -/
def run_fashion_orchestration_flow (env : AgentFlowEnv) (dbId : String) : RunOut :=
  run_promo_orchestration_flow env dbId

/-- Oracle for one ugc flow run (ugc_orchestration_service.py lines 16-66).
`analysisQa` yields `(approved, feedback)`; when not approved a second
image-analysis call (`analysis2`) runs.  `_check_video_realism` never raises
(its vision call sits in its own `try` and its return value is a constant
guideline string), so it needs no oracle slot. -/
structure UgcFlowEnv where
  analysis1 : ExcRes String
  analysisQa : ExcRes (Bool × Option String)
  analysis2 : ExcRes String
  master : ExcRes String
  uScore : ExcRes QARes
  uFix : ExcRes String
  flagged : Bool
  sanitize : ExcRes String
  resize : ExcRes String
  createJob : ExcRes String
  poll : PollEnv
  dbFlowFail : ExcRes Unit

/-- Steps 4-7 of the ugc flow: master agent, `_run_ugc_qa_loop`, then the
shared moderation/submission tail. -/
def ugcFlowRest (env : UgcFlowEnv) (dbId : String) : RunOut :=
  match env.master with
  | ExcRes.exc m => ⟨[], some m⟩
  | ExcRes.ok refined =>
    match (_run_ugc_qa_loop env.uScore env.uFix refined).result with
    | ExcRes.exc m => ⟨[], some m⟩
    | ExcRes.ok (finalPrompt, _qaRes) =>
      moderateAndSubmit env.flagged env.sanitize env.resize env.createJob
        env.poll dbId finalPrompt

/-- Body of the ugc `try` block: image analysis, analysis QA with one
self-correction re-analysis, then `ugcFlowRest`. -/
def ugcFlowBody (env : UgcFlowEnv) (dbId : String) : RunOut :=
  match env.analysis1 with
  | ExcRes.exc m => ⟨[], some m⟩
  | ExcRes.ok _pd =>
    match env.analysisQa with
    | ExcRes.exc m => ⟨[], some m⟩
    | ExcRes.ok qv =>
      if qv.1 then ugcFlowRest env dbId
      else
        match env.analysis2 with
        | ExcRes.exc m => ⟨[], some m⟩
        | ExcRes.ok _pd2 => ugcFlowRest env dbId

/-- `run_ugc_orchestration_flow`: body inside a `try` whose handler performs
one failed update. -/
def run_ugc_orchestration_flow (env : UgcFlowEnv) (dbId : String) : RunOut :=
  (ugcFlowBody env dbId).handleWith
    (fun m => mkWrite Site.flowFail (failedFields m) env.dbFlowFail)

/-- Oracle for one remix flow run (orchestration_service.py lines 380-400). -/
structure RemixFlowEnv where
  flagged : Bool
  remixJob : ExcRes String
  poll : RemixPollEnv
  dbFlowFail : ExcRes Unit

/-- `run_remix_orchestration_flow`: a flagged moderation check raises
`ModerationError("Remix prompt flagged by moderation")` — no sanitize call
and no submission; otherwise `remix_video_job` then `poll_and_save_remix`.
The `try` handler performs one failed update. -/
def remixFlowBody (env : RemixFlowEnv) (dbId prompt : String) : RunOut :=
  if env.flagged then ⟨[Ev.modCheck prompt], some "Remix prompt flagged by moderation"⟩
  else
    match env.remixJob with
    | ExcRes.exc m => ⟨[Ev.modCheck prompt], some m⟩
    | ExcRes.ok _jid =>
      (poll_and_save_remix env.poll dbId prompt).withPre
        [Ev.modCheck prompt, Ev.submit prompt]

def run_remix_orchestration_flow (env : RemixFlowEnv) (dbId prompt : String) : RunOut :=
  (remixFlowBody env dbId prompt).handleWith
    (fun m => mkWrite Site.flowFail (failedFields m) env.dbFlowFail)

/-- Oracle for one image flow run (orchestration_service.py lines 41-85). -/
structure ImageFlowEnv where
  dbReassert : ExcRes Unit
  refinePrompt : ExcRes String
  genImage : ExcRes String
  titleGen : ExcRes String
  downloadImg : ExcRes String
  upload : ExcRes String
  dbCompleted : ExcRes Unit
  dbFail : ExcRes Unit

/-- Body of the image `try` block: re-assert the pending status, refine,
generate, title (unprotected — a title failure aborts the flow here, unlike
the video poller), download, upload to `ai_images`, completed update. -/
def imageFlowBody (env : ImageFlowEnv) (dbId : String) : RunOut :=
  match env.dbReassert with
  | ExcRes.exc m =>
    ⟨[Ev.write ⟨Site.imgReassert, [("status", "pending")], false⟩], some m⟩
  | ExcRes.ok _ =>
    let reEv := Ev.write ⟨Site.imgReassert, [("status", "pending")], true⟩
    match env.refinePrompt with
    | ExcRes.exc m => ⟨[reEv], some m⟩
    | ExcRes.ok refined =>
      match env.genImage with
      | ExcRes.exc m => ⟨[reEv], some m⟩
      | ExcRes.ok _url =>
        match env.titleGen with
        | ExcRes.exc m => ⟨[reEv], some m⟩
        | ExcRes.ok title =>
          match env.downloadImg with
          | ExcRes.exc m => ⟨[reEv], some m⟩
          | ExcRes.ok _bytes =>
            let upEv := Ev.uploadBlob "ai_images" (dbId ++ ".png")
            match env.upload with
            | ExcRes.exc m => ⟨[reEv, upEv], some m⟩
            | ExcRes.ok storageUrl =>
              let cf : List (String × String) :=
                [("status", "completed"), ("image_url", storageUrl),
                  ("image_prompt", refined), ("title", title)]
              match env.dbCompleted with
              | ExcRes.ok _ => ⟨[reEv, upEv, Ev.write ⟨Site.imgCompleted, cf, true⟩], none⟩
              | ExcRes.exc m => ⟨[reEv, upEv, Ev.write ⟨Site.imgCompleted, cf, false⟩], some m⟩

/-- `run_image_orchestration_flow`: body inside a `try` whose handler
performs one failed update. -/
def run_image_orchestration_flow (env : ImageFlowEnv) (dbId : String) : RunOut :=
  (imageFlowBody env dbId).handleWith
    (fun m => mkWrite Site.imgFail (failedFields m) env.dbFail)

/-! ### Background-task dispatchers (`app/services/video_tasks.py`) -/

/-- The methods defined on `OrchestrationService`
(orchestration_service.py lines 14-533). -/
def orchestrationServiceMethods : List String :=
  ["initiate_image_generation", "run_image_orchestration_flow", "refine_prompt",
    "generate_image", "initiate_video_generation", "initiate_video_remix",
    "run_fashion_orchestration_flow", "run_promo_orchestration_flow",
    "_run_fashion_concept_agent", "_run_fashion_visual_agent",
    "_run_fashion_audio_agent", "_run_fashion_assembly_agent",
    "_run_promo_concept_agent", "_run_promo_visual_agent",
    "_run_promo_audio_agent", "_run_promo_assembly_agent", "_run_qa_loop",
    "_sanitize_prompt", "_generate_creative_title",
    "run_remix_orchestration_flow", "poll_and_save_remix", "poll_and_save_video"]

/-- `str(AttributeError)` raised by
`orchestrator.run_general_orchestration_flow(...)`, since the `orchestrator`
instance of `OrchestrationService` defines no such method.  (The Python
message wraps both names in quote characters.) -/
def attributeErrorMsg : String :=
  "AttributeError: OrchestrationService object has no attribute run_general_orchestration_flow"

/-- `process_video_task` (video_tasks.py lines 7-60): dispatch on
`video_type` — "fashion", "ugc", "general" (which looks up the missing
`run_general_orchestration_flow` attribute and therefore raises before any
orchestration work), anything else → promo.  The dispatcher's `except`
performs one more failed update. -/
def processVideoDispatch (videoType dbId : String)
    (fashionEnv promoEnv : AgentFlowEnv) (ugcEnv : UgcFlowEnv) : RunOut :=
  if videoType = "fashion" then run_fashion_orchestration_flow fashionEnv dbId
  else if videoType = "ugc" then run_ugc_orchestration_flow ugcEnv dbId
  else if videoType = "general" then
    if orchestrationServiceMethods.contains "run_general_orchestration_flow" then
      ⟨[], none⟩
    else ⟨[], some attributeErrorMsg⟩
  else run_promo_orchestration_flow promoEnv dbId

def process_video_task (videoType dbId : String)
    (fashionEnv promoEnv : AgentFlowEnv) (ugcEnv : UgcFlowEnv)
    (dbTaskFail : ExcRes Unit) : RunOut :=
  (processVideoDispatch videoType dbId fashionEnv promoEnv ugcEnv).handleWith
    (fun m => mkWrite Site.taskFail (failedFields m) dbTaskFail)

/-- `process_remix_task` (video_tasks.py lines 83-101). -/
def process_remix_task (env : RemixFlowEnv) (dbId prompt : String)
    (dbTaskFail : ExcRes Unit) : RunOut :=
  (run_remix_orchestration_flow env dbId prompt).handleWith
    (fun m => mkWrite Site.taskFail (failedFields m) dbTaskFail)

/-- `process_image_task` (video_tasks.py lines 62-81). -/
def process_image_task (env : ImageFlowEnv) (dbId : String)
    (dbTaskFail : ExcRes Unit) : RunOut :=
  (run_image_orchestration_flow env dbId).handleWith
    (fun m => mkWrite Site.taskFail (failedFields m) dbTaskFail)

/-! ### Whole-job traces: pending insert followed by background execution -/

/-- The pending `insert_record` performed by the `initiate_*` entry points
before any background work is queued (a job id exists only if this insert
succeeded, so it is recorded as a successful write). -/
def pendingInsertEv (title content : String) : Ev :=
  Ev.write ⟨Site.pendInsert,
    [("title", title), ("user_content", content), ("status", "pending")], true⟩

/-- Full persisted history of one video job (any `video_type`): the pending
insert from `initiate_video_generation` followed by the background task. -/
def videoJobTrace (videoType title content dbId : String)
    (fashionEnv promoEnv : AgentFlowEnv) (ugcEnv : UgcFlowEnv)
    (dbTaskFail : ExcRes Unit) : RunOut :=
  let t := process_video_task videoType dbId fashionEnv promoEnv ugcEnv dbTaskFail
  ⟨pendingInsertEv title content :: t.events, t.err⟩

/-- Full persisted history of one remix job: the pending insert from
`initiate_video_remix` followed by the background remix task. -/
def remixJobTrace (dbId prompt : String) (env : RemixFlowEnv)
    (dbTaskFail : ExcRes Unit) : RunOut :=
  let t := process_remix_task env dbId prompt dbTaskFail
  ⟨pendingInsertEv "Remixed Video" prompt :: t.events, t.err⟩

/-- Full persisted history of one image job: the pending insert from
`initiate_image_generation` followed by the background image task. -/
def imageJobTrace (dbId content : String) (env : ImageFlowEnv)
    (dbTaskFail : ExcRes Unit) : RunOut :=
  let t := process_image_task env dbId dbTaskFail
  ⟨pendingInsertEv "Generated Image" content :: t.events, t.err⟩

/-! ### The `download` endpoint (`app/api/v1/endpoints/video.py` lines 188-200) -/

/-- The local files written during a run, as (path, content) pairs. -/
def localFilesOf (es : List Ev) : List (String × String) :=
  es.filterMap fun e => match e with | Ev.localSave p c => some (p, c) | _ => none

/-- `download_video`: serves `outputs/videos/{job_id}.mp4` relative to the
working directory, returning its bytes, or `none` (HTTP 404 "Video not found
locally") when no such file exists. -/
def download_video (files : List (String × String)) (jobId : String) : Option String :=
  (files.find? fun f => f.1 = "outputs/videos/" ++ jobId ++ ".mp4").map fun f => f.2

/-! ### Terminal-write invariants -/

/-- Whether a write attempt sets a terminal status. -/
def WriteAttempt.isTerm (w : WriteAttempt) : Bool :=
  w.fields.any fun f => f.1 = "status" && (f.2 = "completed" || f.2 = "failed")

/-- A successful terminal write: the update returned normally and set
`status` to `completed` or `failed`. -/
def WriteAttempt.succTerm (w : WriteAttempt) : Bool := w.ok && w.isTerm

/-- Invariant satisfied by every routine of the orchestration code: only the
final write attempt can be a successful terminal write, and if an exception
escapes the routine then no write attempt in it succeeded terminally. -/
def CleanOut (o : RunOut) : Prop :=
  (∀ w ∈ o.writes.dropLast, w.succTerm = false) ∧
  (o.err.isSome = true → ∀ w ∈ o.writes, w.succTerm = false)

theorem writesOf_append (a b : List Ev) : writesOf (a ++ b) = writesOf a ++ writesOf b := by
  simp [writesOf]

theorem runout_writes_mk (es : List Ev) (e : Option String) :
    RunOut.writes ⟨es, e⟩ = writesOf es := rfl

theorem mem_dropLast_append {α : Type} (l1 l2 : List α) (w : α)
    (h : w ∈ (l1 ++ l2).dropLast) : w ∈ l1 ∨ w ∈ l2.dropLast := by
  induction l2 using List.reverseRecOn with
  | nil =>
    left
    rw [List.append_nil] at h
    exact List.dropLast_subset _ h
  | append_singleton l2 x _ =>
    rw [← List.append_assoc, List.dropLast_concat] at h
    rcases List.mem_append.mp h with h1 | h2
    · exact Or.inl h1
    · right
      rw [List.dropLast_concat]
      exact h2

theorem countP_le_one_of_dropLast {α : Type} (P : α → Bool) :
    ∀ l : List α, (∀ w ∈ l.dropLast, P w = false) → l.countP P ≤ 1 := by
  intro l
  induction l using List.reverseRecOn with
  | nil => intro _; simp
  | append_singleton t x ih =>
    intro h
    rw [List.dropLast_concat] at h
    rw [List.countP_append]
    have ht : t.countP P = 0 := by
      rw [List.countP_eq_zero]
      intro w hw
      simpa using h w hw
    rw [ht]
    cases hP : P x <;> simp [List.countP_cons, hP]

theorem cleanOut_of_all_fail (es : List Ev) (e : Option String)
    (h : ∀ w ∈ writesOf es, w.succTerm = false) : CleanOut ⟨es, e⟩ := by
  constructor
  · intro w hw
    exact h w (List.dropLast_subset _ (by simpa [runout_writes_mk] using hw))
  · intro _ w hw
    exact h w (by simpa [runout_writes_mk] using hw)

theorem cleanOut_none (es : List Ev)
    (h : ∀ v ∈ (writesOf es).dropLast, v.succTerm = false) :
    CleanOut ⟨es, none⟩ := by
  constructor
  · intro v hv
    exact h v (by simpa [runout_writes_mk] using hv)
  · intro hs
    simp at hs

theorem cleanOut_mkWrite (s : Site) (f : List (String × String)) (r : ExcRes Unit) :
    CleanOut (mkWrite s f r) := by
  cases r with
  | ok _ => exact cleanOut_none _ (by simp [writesOf])
  | exc m =>
    exact cleanOut_of_all_fail _ _ (by simp [writesOf, WriteAttempt.succTerm])

theorem cleanOut_handleWith (o : RunOut) (h : String → RunOut)
    (ho : CleanOut o) (hh : ∀ m, CleanOut (h m)) : CleanOut (o.handleWith h) := by
  unfold RunOut.handleWith
  cases he : o.err with
  | none => exact ho
  | some m =>
    constructor
    · intro w hw
      rw [runout_writes_mk, writesOf_append] at hw
      rcases mem_dropLast_append _ _ _ hw with h1 | h2
      · exact ho.2 (by simp [he]) w (by simpa [RunOut.writes] using h1)
      · exact (hh m).1 w (by simpa [RunOut.writes] using h2)
    · intro hs w hw
      rw [runout_writes_mk, writesOf_append] at hw
      rcases List.mem_append.mp hw with h1 | h2
      · exact ho.2 (by simp [he]) w (by simpa [RunOut.writes] using h1)
      · exact (hh m).2 hs w (by simpa [RunOut.writes] using h2)

theorem cleanOut_withPre (o : RunOut) (pre : List Ev)
    (hpre : ∀ w ∈ writesOf pre, w.succTerm = false) (ho : CleanOut o) :
    CleanOut (o.withPre pre) := by
  constructor
  · intro w hw
    rw [show (o.withPre pre).writes = writesOf pre ++ o.writes from by
      simp [RunOut.withPre, RunOut.writes, writesOf_append]] at hw
    rcases mem_dropLast_append _ _ _ hw with h1 | h2
    · exact hpre w h1
    · exact ho.1 w h2
  · intro hs w hw
    rw [show (o.withPre pre).writes = writesOf pre ++ o.writes from by
      simp [RunOut.withPre, RunOut.writes, writesOf_append]] at hw
    rcases List.mem_append.mp hw with h1 | h2
    · exact hpre w h1
    · exact ho.2 (by simpa [RunOut.withPre] using hs) w h2

theorem pollVideoInner_zero (env : PollEnv) (dbId prompt : String) (n : Nat) :
    pollVideoInner env dbId prompt n 0 =
      mkWrite Site.pollTimeout (failedFields "Timed out") env.dbTimeout := rfl

theorem pollVideoInner_succ (env : PollEnv) (dbId prompt : String) (n fuel : Nat) :
    pollVideoInner env dbId prompt n (fuel + 1) =
      match get_video_job_status (env.statusAttempts n) with
      | ExcRes.exc m => ⟨[], some m⟩
      | ExcRes.ok sd =>
        if sd.status = some "completed" then pollVideoCompleted env dbId prompt
        else if sd.status = some "failed" then
          mkWrite Site.pollRemoteFail
            [("status", "failed"), ("error_message", sd.error.getD "Unknown error"),
              ("video_prompt", prompt)]
            env.dbRemoteFail
        else pollVideoInner env dbId prompt (n + 1) fuel := rfl

theorem pollRemixInner_zero (env : RemixPollEnv) (dbId prompt : String) (n : Nat) :
    pollRemixInner env dbId prompt n 0 = ⟨[], some "Remix polling timed out"⟩ := rfl

theorem pollRemixInner_succ (env : RemixPollEnv) (dbId prompt : String) (n fuel : Nat) :
    pollRemixInner env dbId prompt n (fuel + 1) =
      match get_video_job_status (env.statusAttempts n) with
      | ExcRes.exc m => ⟨[], some m⟩
      | ExcRes.ok sd =>
        if sd.status = some "completed" then pollRemixCompleted env dbId prompt
        else if sd.status = some "failed" then
          ⟨[], some ("OpenAI remix job failed: " ++ sd.error.getD "Unknown error")⟩
        else pollRemixInner env dbId prompt (n + 1) fuel := rfl

theorem cleanOut_pollVideoCompleted (env : PollEnv) (dbId prompt : String) :
    CleanOut (pollVideoCompleted env dbId prompt) := by
  unfold pollVideoCompleted
  split
  · exact cleanOut_mkWrite _ _ _
  · split
    · exact cleanOut_withPre _ _ (by simp [writesOf]) (cleanOut_mkWrite _ _ _)
    · split
      · split
        · exact cleanOut_none _ (by simp [writesOf])
        · exact cleanOut_withPre _ _
            (by simp [writesOf, WriteAttempt.succTerm]) (cleanOut_mkWrite _ _ _)
      · split
        · exact cleanOut_none _ (by simp [writesOf])
        · exact cleanOut_withPre _ _
            (by simp [writesOf, WriteAttempt.succTerm]) (cleanOut_mkWrite _ _ _)

theorem cleanOut_pollVideoInner (env : PollEnv) (dbId prompt : String) :
    ∀ fuel n, CleanOut (pollVideoInner env dbId prompt n fuel) := by
  intro fuel
  induction fuel with
  | zero => intro n; rw [pollVideoInner_zero]; exact cleanOut_mkWrite _ _ _
  | succ f ih =>
    intro n
    rw [pollVideoInner_succ]
    split
    · exact cleanOut_of_all_fail _ _ (by simp [writesOf])
    · split
      · exact cleanOut_pollVideoCompleted env dbId prompt
      · split
        · exact cleanOut_mkWrite _ _ _
        · exact ih (n + 1)

theorem cleanOut_poll_and_save_video (env : PollEnv) (dbId prompt : String) :
    CleanOut (poll_and_save_video env dbId prompt) :=
  cleanOut_handleWith _ _ (cleanOut_pollVideoInner env dbId prompt env.fuel 0)
    (fun _ => cleanOut_mkWrite _ _ _)

theorem cleanOut_pollRemixCompleted (env : RemixPollEnv) (dbId prompt : String) :
    CleanOut (pollRemixCompleted env dbId prompt) := by
  unfold pollRemixCompleted
  split
  · exact cleanOut_of_all_fail _ _ (by simp [writesOf])
  · split
    · exact cleanOut_of_all_fail _ _ (by simp [writesOf])
    · split
      · exact cleanOut_of_all_fail _ _ (by simp [writesOf])
      · split
        · exact cleanOut_none _ (by simp [writesOf])
        · exact cleanOut_of_all_fail _ _ (by simp [writesOf, WriteAttempt.succTerm])

theorem cleanOut_pollRemixInner (env : RemixPollEnv) (dbId prompt : String) :
    ∀ fuel n, CleanOut (pollRemixInner env dbId prompt n fuel) := by
  intro fuel
  induction fuel with
  | zero =>
    intro n
    rw [pollRemixInner_zero]
    exact cleanOut_of_all_fail _ _ (by simp [writesOf])
  | succ f ih =>
    intro n
    rw [pollRemixInner_succ]
    split
    · exact cleanOut_of_all_fail _ _ (by simp [writesOf])
    · split
      · exact cleanOut_pollRemixCompleted env dbId prompt
      · split
        · exact cleanOut_of_all_fail _ _ (by simp [writesOf])
        · exact ih (n + 1)

theorem cleanOut_poll_and_save_remix (env : RemixPollEnv) (dbId prompt : String) :
    CleanOut (poll_and_save_remix env dbId prompt) :=
  cleanOut_handleWith _ _ (cleanOut_pollRemixInner env dbId prompt env.fuel 0)
    (fun _ => cleanOut_mkWrite _ _ _)

theorem cleanOut_submitAndPoll (resize createJob : ExcRes String) (pollEnv : PollEnv)
    (dbId p : String) : CleanOut (submitAndPoll resize createJob pollEnv dbId p) := by
  unfold submitAndPoll
  split
  · exact cleanOut_of_all_fail _ _ (by simp [writesOf])
  · split
    · exact cleanOut_of_all_fail _ _ (by simp [writesOf])
    · exact cleanOut_withPre _ _ (by simp [writesOf])
        (cleanOut_poll_and_save_video pollEnv dbId p)

theorem cleanOut_moderateAndSubmit (flagged : Bool)
    (sanitizeRes resize createJob : ExcRes String) (pollEnv : PollEnv)
    (dbId finalPrompt : String) :
    CleanOut (moderateAndSubmit flagged sanitizeRes resize createJob pollEnv dbId
      finalPrompt) := by
  unfold moderateAndSubmit
  split
  · split
    · exact cleanOut_of_all_fail _ _ (by simp [writesOf])
    · exact cleanOut_withPre _ _ (by simp [writesOf])
        (cleanOut_submitAndPoll _ _ _ _ _)
  · exact cleanOut_withPre _ _ (by simp [writesOf])
      (cleanOut_submitAndPoll _ _ _ _ _)

theorem cleanOut_agentFlowBody (env : AgentFlowEnv) (dbId : String) :
    CleanOut (agentFlowBody env dbId) := by
  unfold agentFlowBody
  split
  · exact cleanOut_of_all_fail _ _ (by simp [writesOf])
  · split
    · exact cleanOut_of_all_fail _ _ (by simp [writesOf])
    · split
      · exact cleanOut_of_all_fail _ _ (by simp [writesOf])
      · split
        · exact cleanOut_of_all_fail _ _ (by simp [writesOf])
        · split
          · exact cleanOut_of_all_fail _ _ (by simp [writesOf])
          · exact cleanOut_moderateAndSubmit _ _ _ _ _ _ _

theorem cleanOut_run_promo (env : AgentFlowEnv) (dbId : String) :
    CleanOut (run_promo_orchestration_flow env dbId) :=
  cleanOut_handleWith _ _ (cleanOut_agentFlowBody env dbId)
    (fun _ => cleanOut_mkWrite _ _ _)

theorem cleanOut_run_fashion (env : AgentFlowEnv) (dbId : String) :
    CleanOut (run_fashion_orchestration_flow env dbId) :=
  cleanOut_run_promo env dbId

theorem cleanOut_ugcFlowRest (env : UgcFlowEnv) (dbId : String) :
    CleanOut (ugcFlowRest env dbId) := by
  unfold ugcFlowRest
  split
  · exact cleanOut_of_all_fail _ _ (by simp [writesOf])
  · split
    · exact cleanOut_of_all_fail _ _ (by simp [writesOf])
    · exact cleanOut_moderateAndSubmit _ _ _ _ _ _ _

theorem cleanOut_run_ugc (env : UgcFlowEnv) (dbId : String) :
    CleanOut (run_ugc_orchestration_flow env dbId) := by
  refine cleanOut_handleWith _ _ ?_ (fun _ => cleanOut_mkWrite _ _ _)
  unfold ugcFlowBody
  split
  · exact cleanOut_of_all_fail _ _ (by simp [writesOf])
  · split
    · exact cleanOut_of_all_fail _ _ (by simp [writesOf])
    · split
      · exact cleanOut_ugcFlowRest env dbId
      · split
        · exact cleanOut_of_all_fail _ _ (by simp [writesOf])
        · exact cleanOut_ugcFlowRest env dbId

theorem cleanOut_run_remix (env : RemixFlowEnv) (dbId prompt : String) :
    CleanOut (run_remix_orchestration_flow env dbId prompt) := by
  refine cleanOut_handleWith _ _ ?_ (fun _ => cleanOut_mkWrite _ _ _)
  unfold remixFlowBody
  split
  · exact cleanOut_of_all_fail _ _ (by simp [writesOf])
  · split
    · exact cleanOut_of_all_fail _ _ (by simp [writesOf])
    · exact cleanOut_withPre _ _ (by simp [writesOf])
        (cleanOut_poll_and_save_remix env.poll dbId prompt)

theorem cleanOut_imageFlowBody (env : ImageFlowEnv) (dbId : String) :
    CleanOut (imageFlowBody env dbId) := by
  unfold imageFlowBody
  split
  · exact cleanOut_of_all_fail _ _ (by simp [writesOf, WriteAttempt.succTerm])
  · split
    · exact cleanOut_of_all_fail _ _
        (by simp [writesOf, WriteAttempt.succTerm, WriteAttempt.isTerm])
    · split
      · exact cleanOut_of_all_fail _ _
          (by simp [writesOf, WriteAttempt.succTerm, WriteAttempt.isTerm])
      · split
        · exact cleanOut_of_all_fail _ _
            (by simp [writesOf, WriteAttempt.succTerm, WriteAttempt.isTerm])
        · split
          · exact cleanOut_of_all_fail _ _
              (by simp [writesOf, WriteAttempt.succTerm, WriteAttempt.isTerm])
          · split
            · exact cleanOut_of_all_fail _ _
                (by simp [writesOf, WriteAttempt.succTerm, WriteAttempt.isTerm])
            · split
              · exact cleanOut_none _
                  (by simp [writesOf, WriteAttempt.succTerm, WriteAttempt.isTerm])
              · exact cleanOut_of_all_fail _ _
                  (by simp [writesOf, WriteAttempt.succTerm, WriteAttempt.isTerm])

theorem cleanOut_run_image (env : ImageFlowEnv) (dbId : String) :
    CleanOut (run_image_orchestration_flow env dbId) :=
  cleanOut_handleWith _ _ (cleanOut_imageFlowBody env dbId)
    (fun _ => cleanOut_mkWrite _ _ _)

theorem cleanOut_process_video_task (videoType dbId : String)
    (fashionEnv promoEnv : AgentFlowEnv) (ugcEnv : UgcFlowEnv)
    (dbTaskFail : ExcRes Unit) :
    CleanOut (process_video_task videoType dbId fashionEnv promoEnv ugcEnv dbTaskFail) := by
  refine cleanOut_handleWith _ _ ?_ (fun _ => cleanOut_mkWrite _ _ _)
  unfold processVideoDispatch
  split
  · exact cleanOut_run_fashion fashionEnv dbId
  · split
    · exact cleanOut_run_ugc ugcEnv dbId
    · split
      · split
        · exact cleanOut_none _ (by simp [writesOf])
        · exact cleanOut_of_all_fail _ _ (by simp [writesOf])
      · exact cleanOut_run_promo promoEnv dbId

theorem cleanOut_process_remix_task (env : RemixFlowEnv) (dbId prompt : String)
    (dbTaskFail : ExcRes Unit) :
    CleanOut (process_remix_task env dbId prompt dbTaskFail) :=
  cleanOut_handleWith _ _ (cleanOut_run_remix env dbId prompt)
    (fun _ => cleanOut_mkWrite _ _ _)

theorem cleanOut_process_image_task (env : ImageFlowEnv) (dbId : String)
    (dbTaskFail : ExcRes Unit) :
    CleanOut (process_image_task env dbId dbTaskFail) :=
  cleanOut_handleWith _ _ (cleanOut_run_image env dbId)
    (fun _ => cleanOut_mkWrite _ _ _)


/-- The persistence discipline asserted by the spec for one job record: the
first write is the successful pending insert (which is not terminal), at most
one write in the whole history is a successful terminal write, and no write
attempt follows a successful terminal write (equivalently: every write before
the last one is non-terminal or failed). -/
def JobPersistInvariant (o : RunOut) : Prop :=
  (∃ w, o.writes.head? = some w ∧ w.site = Site.pendInsert ∧
    ("status", "pending") ∈ w.fields ∧ w.succTerm = false) ∧
  o.writes.countP (fun w => w.succTerm) ≤ 1 ∧
  (∀ w ∈ o.writes.dropLast, w.succTerm = false)

theorem jobPersist_of_clean (title content : String) (t : RunOut)
    (ht : CleanOut t) :
    JobPersistInvariant ⟨pendingInsertEv title content :: t.events, t.err⟩ := by
  have hc : CleanOut (t.withPre [pendingInsertEv title content]) := by
    refine cleanOut_withPre t _ ?_ ht
    intro v hv
    have hveq : v = ⟨Site.pendInsert,
        [("title", title), ("user_content", content), ("status", "pending")], true⟩ := by
      simpa [writesOf, pendingInsertEv] using hv
    subst hveq
    rfl
  refine ⟨⟨⟨Site.pendInsert,
    [("title", title), ("user_content", content), ("status", "pending")], true⟩,
    rfl, rfl, by simp, rfl⟩, ?_, ?_⟩
  · exact countP_le_one_of_dropLast _ _ hc.1
  · exact hc.1

/-- C1: for every job — across the promo, fashion, ugc, general (and any
other dispatched `video_type`), remix and image flows, over all oracle
behaviours of the external services — the persisted history starts with the
pending insert, contains at most one successful terminal
(completed-or-failed) write, and performs no write attempt after a
successful terminal write. -/
theorem c1_job_single_terminal
    (videoType title content dbId prompt imgContent : String)
    (fe pe : AgentFlowEnv) (ue : UgcFlowEnv) (re : RemixFlowEnv) (ie : ImageFlowEnv)
    (tdb1 tdb2 tdb3 : ExcRes Unit) :
    JobPersistInvariant (videoJobTrace videoType title content dbId fe pe ue tdb1) ∧
    JobPersistInvariant (remixJobTrace dbId prompt re tdb2) ∧
    JobPersistInvariant (imageJobTrace dbId imgContent ie tdb3) :=
  ⟨jobPersist_of_clean title content _
      (cleanOut_process_video_task videoType dbId fe pe ue tdb1),
    jobPersist_of_clean "Remixed Video" prompt _
      (cleanOut_process_remix_task re dbId prompt tdb2),
    jobPersist_of_clean "Generated Image" imgContent _
      (cleanOut_process_image_task ie dbId tdb3)⟩

/-- Concrete successful-response oracle value. -/
def respW (s e : Option String) : HttpResp := ⟨200, s, e, ""⟩

/-- Witness poll oracle: remote status `failed` with error `quota_exceeded`
on the first poll, every database call succeeding. -/
def pollEnvRemoteFailW : PollEnv :=
  ⟨fun _ _ => ExcRes.ok (respW (some "failed") (some "quota_exceeded")), 3,
    ExcRes.ok "B", ExcRes.ok "U", ExcRes.ok "T",
    ExcRes.ok (), ExcRes.ok (), ExcRes.ok (), ExcRes.ok (), ExcRes.ok ()⟩

/-- Witness agent-flow oracle: all stages succeed, QA passes first try,
moderation not flagged. -/
def agentEnvW : AgentFlowEnv :=
  ⟨ExcRes.ok "c1", ExcRes.ok "v1", ExcRes.ok "a1", ExcRes.ok "asm",
    fun _ => ExcRes.ok ⟨some 90, none⟩, fun _ => ExcRes.ok "fx",
    false, ExcRes.ok "san", ExcRes.ok "rb", ExcRes.ok "job1",
    pollEnvRemoteFailW, ExcRes.ok ()⟩

/-- Witness ugc-flow oracle. -/
def ugcEnvW : UgcFlowEnv :=
  ⟨ExcRes.ok "pd", ExcRes.ok (true, none), ExcRes.ok "pd2", ExcRes.ok "mp",
    ExcRes.ok ⟨some 90, none⟩, ExcRes.ok "fx", false, ExcRes.ok "san",
    ExcRes.ok "rb", ExcRes.ok "job1", pollEnvRemoteFailW, ExcRes.ok ()⟩

/-- Witness remix poll oracle: completed on the first poll, all calls
succeed. -/
def remixPollEnvW : RemixPollEnv :=
  ⟨fun _ _ => ExcRes.ok (respW (some "completed") none), 2,
    ExcRes.ok "BYTES", ExcRes.ok (), ExcRes.ok "URL", ExcRes.ok (), ExcRes.ok ()⟩

/-- Witness remix-flow oracle: not flagged, remix job created. -/
def remixEnvW : RemixFlowEnv := ⟨false, ExcRes.ok "rjob", remixPollEnvW, ExcRes.ok ()⟩

/-- Witness image-flow oracle: everything succeeds. -/
def imageEnvW : ImageFlowEnv :=
  ⟨ExcRes.ok (), ExcRes.ok "rp", ExcRes.ok "iu", ExcRes.ok "t", ExcRes.ok "b",
    ExcRes.ok "su", ExcRes.ok (), ExcRes.ok ()⟩

/-- Witness for `c1_job_single_terminal` at a concrete promo run whose remote
job fails: the history is the pending insert followed by one successful
terminal failed write. -/
theorem c1_job_single_terminal_witness :
    (videoJobTrace "promo" "Promo Video" "c" "db1" agentEnvW agentEnvW ugcEnvW
      (ExcRes.ok ())).writes.countP (fun w => w.succTerm) ≤ 1 ∧
    WriteAttempt.succTerm ⟨Site.pendInsert,
      [("title", "Promo Video"), ("user_content", "c"), ("status", "pending")],
      true⟩ = false := by
  have h := c1_job_single_terminal "promo" "Promo Video" "c" "db1" "p" "ic"
    agentEnvW agentEnvW ugcEnvW remixEnvW imageEnvW
    (ExcRes.ok ()) (ExcRes.ok ()) (ExcRes.ok ())
  exact ⟨h.1.2.1, h.1.2.2 _ (by decide)⟩

/-- C10: dispatching a video job with variant "general" invokes
`orchestrator.run_general_orchestration_flow`, which `OrchestrationService`
does not define, so an `AttributeError` is raised before any pipeline stage,
moderation, submission or polling, and the dispatcher's catch-all performs
exactly one write: a failed update carrying that error's message (successful
exactly when the update call itself succeeds). -/
theorem c10_general_dispatch_fails (dbId : String) (fe pe : AgentFlowEnv)
    (ue : UgcFlowEnv) (tdb : ExcRes Unit) :
    orchestrationServiceMethods.contains "run_general_orchestration_flow" = false ∧
    (process_video_task "general" dbId fe pe ue tdb).events =
      [Ev.write ⟨Site.taskFail, failedFields attributeErrorMsg, tdb.isOk⟩] := by
  refine ⟨rfl, ?_⟩
  cases tdb <;> rfl

/-- Predicate for the failed-update shape: the update dict is exactly
`{"status": "failed", "error_message": m}` for some message. -/
def plainFailShape (w : WriteAttempt) : Prop :=
  ∃ m, w.fields = failedFields m

/-- The shape of the one exception: the remote-reported-failure branch of
`poll_and_save_video` also writes the attempted prompt. -/
def remoteFailShape (w : WriteAttempt) : Prop :=
  w.site = Site.pollRemoteFail ∧
    ∃ m p, w.fields = [("status", "failed"), ("error_message", m), ("video_prompt", p)]

/-- Whether a write attempt sets `status` to `failed`. -/
def WriteAttempt.isFailedWrite (w : WriteAttempt) : Bool :=
  w.fields.any fun f => f.1 = "status" && f.2 = "failed"

/-- All failed writes among the events have the plain
status/error_message-only shape, except the video poller's
remote-reported-failure write which also carries the prompt. -/
def FailDisc (es : List Ev) : Prop :=
  ∀ w ∈ writesOf es, w.isFailedWrite = true → plainFailShape w ∨ remoteFailShape w

theorem failDisc_append (a b : List Ev) (ha : FailDisc a) (hb : FailDisc b) :
    FailDisc (a ++ b) := by
  intro w hw
  rw [writesOf_append] at hw
  rcases List.mem_append.mp hw with h | h
  · exact ha w h
  · exact hb w h

theorem failDisc_mkWrite_failed (site : Site) (m : String) (res : ExcRes Unit) :
    FailDisc (mkWrite site (failedFields m) res).events := by
  cases res with
  | ok _ =>
    intro w hw _
    have : w = ⟨site, failedFields m, true⟩ := by simpa [mkWrite, writesOf] using hw
    exact Or.inl ⟨m, by rw [this]⟩
  | exc e =>
    intro w hw _
    have : w = ⟨site, failedFields m, false⟩ := by simpa [mkWrite, writesOf] using hw
    exact Or.inl ⟨m, by rw [this]⟩

theorem failDisc_handleWith (o : RunOut) (h : String → RunOut)
    (ho : FailDisc o.events) (hh : ∀ m, FailDisc (h m).events) :
    FailDisc (o.handleWith h).events := by
  unfold RunOut.handleWith
  cases he : o.err with
  | none => exact ho
  | some m => exact failDisc_append _ _ ho (hh m)

theorem failDisc_withPre (o : RunOut) (pre : List Ev)
    (hpre : FailDisc pre) (ho : FailDisc o.events) :
    FailDisc (o.withPre pre).events :=
  failDisc_append _ _ hpre ho

theorem failDisc_nil : FailDisc [] := by
  intro w hw
  simp [writesOf] at hw

theorem failDisc_of_not_failed (es : List Ev)
    (h : ∀ w ∈ writesOf es, w.isFailedWrite = false) : FailDisc es := by
  intro w hw hf
  rw [h w hw] at hf
  cases hf

theorem failDisc_pollVideoCompleted (env : PollEnv) (dbId prompt : String) :
    FailDisc (pollVideoCompleted env dbId prompt).events := by
  unfold pollVideoCompleted
  split
  · exact failDisc_mkWrite_failed _ _ _
  · split
    · exact failDisc_withPre _ _ (failDisc_of_not_failed _ (by intro w hw; simp [writesOf] at hw))
        (failDisc_mkWrite_failed _ _ _)
    · split
      · split
        · refine failDisc_of_not_failed _ ?_
          intro w hw
          simp [writesOf] at hw
          subst hw
          rfl
        · refine failDisc_withPre _ _ ?_ (failDisc_mkWrite_failed _ _ _)
          refine failDisc_of_not_failed _ ?_
          intro w hw
          simp [writesOf] at hw
          subst hw
          rfl
      · split
        · refine failDisc_of_not_failed _ ?_
          intro w hw
          simp [writesOf] at hw
          subst hw
          rfl
        · refine failDisc_withPre _ _ ?_ (failDisc_mkWrite_failed _ _ _)
          refine failDisc_of_not_failed _ ?_
          intro w hw
          simp [writesOf] at hw
          subst hw
          rfl

theorem failDisc_mkWrite_remoteFail (m p : String) (res : ExcRes Unit) :
    FailDisc (mkWrite Site.pollRemoteFail
      [("status", "failed"), ("error_message", m), ("video_prompt", p)] res).events := by
  cases res with
  | ok _ =>
    intro w hw _
    have hveq : w = ⟨Site.pollRemoteFail,
        [("status", "failed"), ("error_message", m), ("video_prompt", p)], true⟩ := by
      simpa [mkWrite, writesOf] using hw
    subst hveq
    exact Or.inr ⟨rfl, m, p, rfl⟩
  | exc e =>
    intro w hw _
    have hveq : w = ⟨Site.pollRemoteFail,
        [("status", "failed"), ("error_message", m), ("video_prompt", p)], false⟩ := by
      simpa [mkWrite, writesOf] using hw
    subst hveq
    exact Or.inr ⟨rfl, m, p, rfl⟩

theorem failDisc_pollVideoInner (env : PollEnv) (dbId prompt : String) :
    ∀ fuel n, FailDisc (pollVideoInner env dbId prompt n fuel).events := by
  intro fuel
  induction fuel with
  | zero => intro n; rw [pollVideoInner_zero]; exact failDisc_mkWrite_failed _ _ _
  | succ f ih =>
    intro n
    rw [pollVideoInner_succ]
    split
    · exact failDisc_nil
    · split
      · exact failDisc_pollVideoCompleted env dbId prompt
      · split
        · exact failDisc_mkWrite_remoteFail _ prompt _
        · exact ih (n + 1)

theorem failDisc_poll_and_save_video (env : PollEnv) (dbId prompt : String) :
    FailDisc (poll_and_save_video env dbId prompt).events :=
  failDisc_handleWith _ _ (failDisc_pollVideoInner env dbId prompt env.fuel 0)
    (fun m => failDisc_mkWrite_failed _ m _)

theorem failDisc_pollRemixCompleted (env : RemixPollEnv) (dbId prompt : String) :
    FailDisc (pollRemixCompleted env dbId prompt).events := by
  unfold pollRemixCompleted
  split
  · exact failDisc_nil
  · split
    · exact failDisc_nil
    · split
      · refine failDisc_of_not_failed _ ?_
        intro w hw
        simp [writesOf] at hw
      · split
        · refine failDisc_of_not_failed _ ?_
          intro w hw
          simp [writesOf] at hw
          subst hw
          rfl
        · refine failDisc_of_not_failed _ ?_
          intro w hw
          simp [writesOf] at hw
          subst hw
          rfl

theorem failDisc_pollRemixInner (env : RemixPollEnv) (dbId prompt : String) :
    ∀ fuel n, FailDisc (pollRemixInner env dbId prompt n fuel).events := by
  intro fuel
  induction fuel with
  | zero => intro n; rw [pollRemixInner_zero]; exact failDisc_nil
  | succ f ih =>
    intro n
    rw [pollRemixInner_succ]
    split
    · exact failDisc_nil
    · split
      · exact failDisc_pollRemixCompleted env dbId prompt
      · split
        · exact failDisc_nil
        · exact ih (n + 1)

theorem failDisc_poll_and_save_remix (env : RemixPollEnv) (dbId prompt : String) :
    FailDisc (poll_and_save_remix env dbId prompt).events :=
  failDisc_handleWith _ _ (failDisc_pollRemixInner env dbId prompt env.fuel 0)
    (fun m => failDisc_mkWrite_failed _ m _)

theorem failDisc_submitAndPoll (resize createJob : ExcRes String) (pollEnv : PollEnv)
    (dbId p : String) : FailDisc (submitAndPoll resize createJob pollEnv dbId p).events := by
  unfold submitAndPoll
  split
  · exact failDisc_nil
  · split
    · exact failDisc_of_not_failed _ (by intro w hw; simp [writesOf] at hw)
    · exact failDisc_withPre _ _ (failDisc_of_not_failed _ (by intro w hw; simp [writesOf] at hw))
        (failDisc_poll_and_save_video pollEnv dbId p)

theorem failDisc_moderateAndSubmit (flagged : Bool)
    (sanitizeRes resize createJob : ExcRes String) (pollEnv : PollEnv)
    (dbId finalPrompt : String) :
    FailDisc (moderateAndSubmit flagged sanitizeRes resize createJob pollEnv dbId
      finalPrompt).events := by
  unfold moderateAndSubmit
  split
  · split
    · exact failDisc_of_not_failed _ (by intro w hw; simp [writesOf] at hw)
    · exact failDisc_withPre _ _ (failDisc_of_not_failed _ (by intro w hw; simp [writesOf] at hw))
        (failDisc_submitAndPoll _ _ _ _ _)
  · exact failDisc_withPre _ _ (failDisc_of_not_failed _ (by intro w hw; simp [writesOf] at hw))
      (failDisc_submitAndPoll _ _ _ _ _)

theorem failDisc_run_promo (env : AgentFlowEnv) (dbId : String) :
    FailDisc (run_promo_orchestration_flow env dbId).events := by
  refine failDisc_handleWith _ _ ?_ (fun m => failDisc_mkWrite_failed _ m _)
  unfold agentFlowBody
  split
  · exact failDisc_nil
  · split
    · exact failDisc_nil
    · split
      · exact failDisc_nil
      · split
        · exact failDisc_nil
        · split
          · exact failDisc_nil
          · exact failDisc_moderateAndSubmit _ _ _ _ _ _ _

theorem failDisc_run_ugc (env : UgcFlowEnv) (dbId : String) :
    FailDisc (run_ugc_orchestration_flow env dbId).events := by
  have hrest : FailDisc (ugcFlowRest env dbId).events := by
    unfold ugcFlowRest
    split
    · exact failDisc_nil
    · split
      · exact failDisc_nil
      · exact failDisc_moderateAndSubmit _ _ _ _ _ _ _
  refine failDisc_handleWith _ _ ?_ (fun m => failDisc_mkWrite_failed _ m _)
  unfold ugcFlowBody
  split
  · exact failDisc_nil
  · split
    · exact failDisc_nil
    · split
      · exact hrest
      · split
        · exact failDisc_nil
        · exact hrest

theorem failDisc_run_remix (env : RemixFlowEnv) (dbId prompt : String) :
    FailDisc (run_remix_orchestration_flow env dbId prompt).events := by
  refine failDisc_handleWith _ _ ?_ (fun m => failDisc_mkWrite_failed _ m _)
  unfold remixFlowBody
  split
  · exact failDisc_nil
  · split
    · exact failDisc_of_not_failed _ (by intro w hw; simp [writesOf] at hw)
    · exact failDisc_withPre _ _ (failDisc_of_not_failed _ (by intro w hw; simp [writesOf] at hw))
        (failDisc_poll_and_save_remix env.poll dbId prompt)

theorem failDisc_run_image (env : ImageFlowEnv) (dbId : String) :
    FailDisc (run_image_orchestration_flow env dbId).events := by
  refine failDisc_handleWith _ _ ?_ (fun m => failDisc_mkWrite_failed _ m _)
  unfold imageFlowBody
  split
  · refine failDisc_of_not_failed _ ?_
    intro w hw
    simp [writesOf] at hw
    subst hw
    rfl
  · split
    · refine failDisc_of_not_failed _ ?_
      intro w hw
      simp [writesOf] at hw
      subst hw
      rfl
    · split
      · refine failDisc_of_not_failed _ ?_
        intro w hw
        simp [writesOf] at hw
        subst hw
        rfl
      · split
        · refine failDisc_of_not_failed _ ?_
          intro w hw
          simp [writesOf] at hw
          subst hw
          rfl
        · split
          · refine failDisc_of_not_failed _ ?_
            intro w hw
            simp [writesOf] at hw
            subst hw
            rfl
          · split
            · refine failDisc_of_not_failed _ ?_
              intro w hw
              simp [writesOf] at hw
              subst hw
              rfl
            · split
              · refine failDisc_of_not_failed _ ?_
                intro w hw
                simp [writesOf] at hw
                rcases hw with hw | hw <;> subst hw <;> rfl
              · refine failDisc_of_not_failed _ ?_
                intro w hw
                simp [writesOf] at hw
                rcases hw with hw | hw <;> subst hw <;> rfl

theorem failDisc_process_video_task (videoType dbId : String)
    (fashionEnv promoEnv : AgentFlowEnv) (ugcEnv : UgcFlowEnv)
    (dbTaskFail : ExcRes Unit) :
    FailDisc (process_video_task videoType dbId fashionEnv promoEnv ugcEnv
      dbTaskFail).events := by
  refine failDisc_handleWith _ _ ?_ (fun m => failDisc_mkWrite_failed _ m _)
  unfold processVideoDispatch
  split
  · exact failDisc_run_promo fashionEnv dbId
  · split
    · exact failDisc_run_ugc ugcEnv dbId
    · split
      · split
        · exact failDisc_nil
        · exact failDisc_nil
      · exact failDisc_run_promo promoEnv dbId

/-- C6 counterexample: with remote status `failed` (error `quota_exceeded`)
on the first poll, `poll_and_save_video` performs a failed terminal write
whose update dict also contains `video_prompt` — so `error_message` is NOT
the only content field changed on this failed transition, refuting the claim
at this concrete input. -/
theorem c6_counterexample :
    (poll_and_save_video pollEnvRemoteFailW "db1" "P").writes =
      [⟨Site.pollRemoteFail,
        [("status", "failed"), ("error_message", "quota_exceeded"),
          ("video_prompt", "P")], true⟩] ∧
    ¬ plainFailShape ⟨Site.pollRemoteFail,
        [("status", "failed"), ("error_message", "quota_exceeded"),
          ("video_prompt", "P")], true⟩ := by
  constructor
  · rfl
  · rintro ⟨m, hm⟩
    simp [failedFields] at hm

/-- C6 (amended): in every job history (video of any variant, remix, image),
every write attempt that sets `status` to `failed` has the plain
`{status, error_message}` shape, except the remote-reported-failure write of
`poll_and_save_video`, which additionally (and only there) writes
`video_prompt`. -/
theorem c6_failed_write_fields
    (videoType title content dbId prompt imgContent : String)
    (fe pe : AgentFlowEnv) (ue : UgcFlowEnv) (re : RemixFlowEnv) (ie : ImageFlowEnv)
    (tdb1 tdb2 tdb3 : ExcRes Unit) :
    (∀ w ∈ (videoJobTrace videoType title content dbId fe pe ue tdb1).writes,
      w.isFailedWrite = true → plainFailShape w ∨ remoteFailShape w) ∧
    (∀ w ∈ (remixJobTrace dbId prompt re tdb2).writes,
      w.isFailedWrite = true → plainFailShape w ∨ remoteFailShape w) ∧
    (∀ w ∈ (imageJobTrace dbId imgContent ie tdb3).writes,
      w.isFailedWrite = true → plainFailShape w ∨ remoteFailShape w) := by
  have hpend : ∀ (t c : String) (w : WriteAttempt),
      w = ⟨Site.pendInsert,
        [("title", t), ("user_content", c), ("status", "pending")], true⟩ →
      w.isFailedWrite = true → plainFailShape w ∨ remoteFailShape w := by
    intro t c w hw hf
    subst hw
    exact absurd hf (by rw [show WriteAttempt.isFailedWrite
      ⟨Site.pendInsert, [("title", t), ("user_content", c), ("status", "pending")],
        true⟩ = false from rfl]; simp)
  refine ⟨?_, ?_, ?_⟩
  · intro w hw hf
    rcases List.mem_cons.mp (show w ∈
        (⟨Site.pendInsert, [("title", title), ("user_content", content),
          ("status", "pending")], true⟩ : WriteAttempt) ::
        (process_video_task videoType dbId fe pe ue tdb1).writes from hw)
      with hw1 | hw2
    · exact hpend title content w hw1 hf
    · exact failDisc_process_video_task videoType dbId fe pe ue tdb1 w hw2 hf
  · intro w hw hf
    rcases List.mem_cons.mp (show w ∈
        (⟨Site.pendInsert, [("title", "Remixed Video"), ("user_content", prompt),
          ("status", "pending")], true⟩ : WriteAttempt) ::
        (process_remix_task re dbId prompt tdb2).writes from hw)
      with hw1 | hw2
    · exact hpend "Remixed Video" prompt w hw1 hf
    · exact (failDisc_handleWith _ _ (failDisc_run_remix re dbId prompt)
        (fun m => failDisc_mkWrite_failed _ m _)) w hw2 hf
  · intro w hw hf
    rcases List.mem_cons.mp (show w ∈
        (⟨Site.pendInsert, [("title", "Generated Image"), ("user_content", imgContent),
          ("status", "pending")], true⟩ : WriteAttempt) ::
        (process_image_task ie dbId tdb3).writes from hw)
      with hw1 | hw2
    · exact hpend "Generated Image" imgContent w hw1 hf
    · exact (failDisc_handleWith _ _ (failDisc_run_image ie dbId)
        (fun m => failDisc_mkWrite_failed _ m _)) w hw2 hf

/-- Witness for `c6_failed_write_fields` at a concrete promo run with remote
failure: the one failed write has the remote-failure shape. -/
theorem c6_failed_write_fields_witness :
    plainFailShape ⟨Site.pollRemoteFail,
        [("status", "failed"), ("error_message", "quota_exceeded"),
          ("video_prompt", "asm")], true⟩ ∨
      remoteFailShape ⟨Site.pollRemoteFail,
        [("status", "failed"), ("error_message", "quota_exceeded"),
          ("video_prompt", "asm")], true⟩ := by
  have h := c6_failed_write_fields "promo" "Promo Video" "P" "db1" "P" "ic"
    agentEnvW agentEnvW ugcEnvW remixEnvW imageEnvW
    (ExcRes.ok ()) (ExcRes.ok ()) (ExcRes.ok ())
  exact h.1 ⟨Site.pollRemoteFail,
    [("status", "failed"), ("error_message", "quota_exceeded"),
      ("video_prompt", "asm")], true⟩ (by decide) (by decide)

/-! ### Reaching a terminal remote status after non-terminal polls -/

/-- The k-th status fetch returns normally with a non-terminal remote
status, so the poll loop sleeps and retries. -/
def nonTerminalFetch (att : Nat → Nat → ExcRes HttpResp) (k : Nat) : Prop :=
  ∃ sd, get_video_job_status (att k) = ExcRes.ok sd ∧
    sd.status ≠ some "completed" ∧ sd.status ≠ some "failed"

theorem pollVideoInner_skip (env : PollEnv) (dbId prompt : String) :
    ∀ j i fuel, (∀ k, k < j → nonTerminalFetch env.statusAttempts (i + k)) →
      j ≤ fuel →
      pollVideoInner env dbId prompt i fuel =
        pollVideoInner env dbId prompt (i + j) (fuel - j) := by
  intro j
  induction j with
  | zero => intro i fuel _ _; rfl
  | succ jj ih =>
    intro i fuel hnt hle
    cases fuel with
    | zero => omega
    | succ f =>
      obtain ⟨sd, hsd, hc, hf⟩ := hnt 0 (by omega)
      rw [pollVideoInner_succ]
      rw [show i + 0 = i from rfl] at hsd
      simp only [hsd]
      rw [if_neg hc, if_neg hf]
      have hrec := ih (i + 1) f
        (fun k hk => by
          have h2 := hnt (k + 1) (by omega)
          have e : i + (k + 1) = i + 1 + k := by omega
          rw [e] at h2
          exact h2)
        (by omega)
      have e1 : i + 1 + jj = i + (jj + 1) := by omega
      have e2 : f - jj = f + 1 - (jj + 1) := by omega
      rw [e1, e2] at hrec
      exact hrec

theorem pollRemixInner_skip (env : RemixPollEnv) (dbId prompt : String) :
    ∀ j i fuel, (∀ k, k < j → nonTerminalFetch env.statusAttempts (i + k)) →
      j ≤ fuel →
      pollRemixInner env dbId prompt i fuel =
        pollRemixInner env dbId prompt (i + j) (fuel - j) := by
  intro j
  induction j with
  | zero => intro i fuel _ _; rfl
  | succ jj ih =>
    intro i fuel hnt hle
    cases fuel with
    | zero => omega
    | succ f =>
      obtain ⟨sd, hsd, hc, hf⟩ := hnt 0 (by omega)
      rw [pollRemixInner_succ]
      rw [show i + 0 = i from rfl] at hsd
      simp only [hsd]
      rw [if_neg hc, if_neg hf]
      have hrec := ih (i + 1) f
        (fun k hk => by
          have h2 := hnt (k + 1) (by omega)
          have e : i + (k + 1) = i + 1 + k := by omega
          rw [e] at h2
          exact h2)
        (by omega)
      have e1 : i + 1 + jj = i + (jj + 1) := by omega
      have e2 : f - jj = f + 1 - (jj + 1) := by omega
      rw [e1, e2] at hrec
      exact hrec

theorem remix_path_ne_download_path (a b : String) :
    ("remixes/" ++ a ++ ".mp4") ≠ ("outputs/videos/" ++ b ++ ".mp4") := by
  intro h
  have h2 := congrArg String.data h
  simp [String.data_append] at h2

/-- C9 counterexample: a remix job that completes successfully caches its
asset at `remixes/db1.mp4` (it IS locally cached), yet `download_video`
looks up `outputs/videos/db1.mp4` and returns not-found for that very job
id — refuting the claim that the download endpoint subsequently serves the
cached remix asset. -/
theorem c9_counterexample :
    localFilesOf (poll_and_save_remix remixPollEnvW "db1" "P").events =
      [("remixes/db1.mp4", "BYTES")] ∧
    download_video
      (localFilesOf (poll_and_save_remix remixPollEnvW "db1" "P").events) "db1" = none := by
  exact ⟨rfl, rfl⟩

/-- C9 (amended): for every remix job reaching remote status `completed`
(after any number of non-terminal polls), the asset is written to the local
cache path `remixes/{id}.mp4` strictly before the storage upload, and the
local lookup of that path yields the asset bytes; but the `download_video`
endpoint serves `outputs/videos/{id}.mp4`, a path no remix run ever writes,
so it returns not-found for the job id rather than the cached bytes. -/
theorem c9_remix_cache_path (env : RemixPollEnv) (dbId prompt vbytes url : String)
    (n : Nat)
    (hpre : ∀ k, k < n → nonTerminalFetch env.statusAttempts k)
    (hn : ∃ sd, get_video_job_status (env.statusAttempts n) = ExcRes.ok sd ∧
      sd.status = some "completed")
    (hfuel : n < env.fuel)
    (hdl : env.download = ExcRes.ok vbytes)
    (hls : env.localSave = ExcRes.ok ())
    (hup : env.upload = ExcRes.ok url)
    (hdb : env.dbCompleted = ExcRes.ok ()) :
    (poll_and_save_remix env dbId prompt).events =
      [Ev.localSave ("remixes/" ++ dbId ++ ".mp4") vbytes,
        Ev.uploadBlob "ai_videos" ("remix_" ++ dbId ++ ".mp4"),
        Ev.write ⟨Site.remixCompleted,
          [("status", "completed"), ("video_url", url), ("video_prompt", prompt),
            ("title", "Remixed Video")], true⟩] ∧
    localFilesOf (poll_and_save_remix env dbId prompt).events =
      [("remixes/" ++ dbId ++ ".mp4", vbytes)] ∧
    download_video (localFilesOf (poll_and_save_remix env dbId prompt).events) dbId =
      none := by
  obtain ⟨sd, hsd, hcomp⟩ := hn
  obtain ⟨f, hfeq⟩ : ∃ f, env.fuel - n = f + 1 := ⟨env.fuel - n - 1, by omega⟩
  have hinner : pollRemixInner env dbId prompt 0 env.fuel =
      ⟨[Ev.localSave ("remixes/" ++ dbId ++ ".mp4") vbytes,
        Ev.uploadBlob "ai_videos" ("remix_" ++ dbId ++ ".mp4"),
        Ev.write ⟨Site.remixCompleted,
          [("status", "completed"), ("video_url", url), ("video_prompt", prompt),
            ("title", "Remixed Video")], true⟩], none⟩ := by
    rw [pollRemixInner_skip env dbId prompt n 0 env.fuel
      (fun k hk => by rw [Nat.zero_add]; exact hpre k hk) (by omega)]
    rw [Nat.zero_add, hfeq, pollRemixInner_succ, hsd]
    simp only [hcomp, if_pos]
    unfold pollRemixCompleted
    rw [hdl, hls, hup, hdb]
  have hev : (poll_and_save_remix env dbId prompt).events =
      [Ev.localSave ("remixes/" ++ dbId ++ ".mp4") vbytes,
        Ev.uploadBlob "ai_videos" ("remix_" ++ dbId ++ ".mp4"),
        Ev.write ⟨Site.remixCompleted,
          [("status", "completed"), ("video_url", url), ("video_prompt", prompt),
            ("title", "Remixed Video")], true⟩] := by
    unfold poll_and_save_remix
    rw [hinner]
    rfl
  refine ⟨hev, ?_, ?_⟩
  · rw [hev]
    rfl
  · rw [hev]
    show ((([(("remixes/" ++ dbId ++ ".mp4"), vbytes)]).find?
      fun fl => fl.1 = "outputs/videos/" ++ dbId ++ ".mp4").map fun fl => fl.2) = none
    rw [List.find?_cons_of_neg]
    · rfl
    · simpa using remix_path_ne_download_path dbId dbId

/-- Witness for `c9_remix_cache_path` at the concrete completed remix run. -/
theorem c9_remix_cache_path_witness :
    (poll_and_save_remix remixPollEnvW "db1" "P").events =
      [Ev.localSave "remixes/db1.mp4" "BYTES",
        Ev.uploadBlob "ai_videos" "remix_db1.mp4",
        Ev.write ⟨Site.remixCompleted,
          [("status", "completed"), ("video_url", "URL"), ("video_prompt", "P"),
            ("title", "Remixed Video")], true⟩] := by
  have h := c9_remix_cache_path remixPollEnvW "db1" "P" "BYTES" "URL" 0
    (fun k hk => absurd hk (by omega))
    ⟨⟨some "completed", none⟩, rfl, rfl⟩
    (by decide) rfl rfl rfl rfl
  simpa using h.1

/-- C8: for both pollers, if the remote status reaches `completed` (after any
number of non-terminal polls) but the content download or storage upload then
raises, no write attempt ever sets `status` to `completed`, and a failed
write referencing the storage failure is performed: `poll_and_save_video`
writes `error_message = "Video storage failed: " ++ m` as its next write,
and `poll_and_save_remix` ends with the single failed write carrying the
storage exception's message. -/
theorem c8_storage_failure_fails_job
    (env : PollEnv) (renv : RemixPollEnv) (dbId rDbId prompt rPrompt m rm : String)
    (n rn : Nat)
    (hpre : ∀ k, k < n → nonTerminalFetch env.statusAttempts k)
    (hn : ∃ sd, get_video_job_status (env.statusAttempts n) = ExcRes.ok sd ∧
      sd.status = some "completed")
    (hfuel : n < env.fuel)
    (hsf : env.download = ExcRes.exc m ∨
      (∃ b, env.download = ExcRes.ok b ∧ env.upload = ExcRes.exc m))
    (hrpre : ∀ k, k < rn → nonTerminalFetch renv.statusAttempts k)
    (hrn : ∃ sd, get_video_job_status (renv.statusAttempts rn) = ExcRes.ok sd ∧
      sd.status = some "completed")
    (hrfuel : rn < renv.fuel)
    (hrsf : renv.download = ExcRes.exc rm ∨
      (∃ b, renv.download = ExcRes.ok b ∧ renv.localSave = ExcRes.ok () ∧
        renv.upload = ExcRes.exc rm)) :
    ((∃ b, (poll_and_save_video env dbId prompt).writes.head? =
        some ⟨Site.pollStorageFail, failedFields ("Video storage failed: " ++ m), b⟩) ∧
      (∀ w ∈ (poll_and_save_video env dbId prompt).writes,
        ("status", "completed") ∉ w.fields)) ∧
    ((∃ b, ⟨Site.remixOuter, failedFields rm, b⟩ ∈
        (poll_and_save_remix renv rDbId rPrompt).writes) ∧
      (∀ w ∈ (poll_and_save_remix renv rDbId rPrompt).writes,
        ("status", "completed") ∉ w.fields)) := by
  constructor
  · obtain ⟨sd, hsd, hcomp⟩ := hn
    obtain ⟨f, hfeq⟩ : ∃ f, env.fuel - n = f + 1 := ⟨env.fuel - n - 1, by omega⟩
    have hinner : pollVideoInner env dbId prompt 0 env.fuel =
        pollVideoCompleted env dbId prompt := by
      rw [pollVideoInner_skip env dbId prompt n 0 env.fuel
        (fun k hk => by rw [Nat.zero_add]; exact hpre k hk) (by omega)]
      rw [Nat.zero_add, hfeq, pollVideoInner_succ, hsd]
      simp only [hcomp, if_pos]
    unfold poll_and_save_video
    rw [hinner]
    unfold pollVideoCompleted
    rcases hsf with hdl | ⟨b, hdl, hup⟩
    · rw [hdl]
      cases hst : env.dbStorageFail with
      | ok _ =>
        refine ⟨⟨true, by simp [mkWrite, RunOut.handleWith, RunOut.writes, writesOf]⟩, ?_⟩
        intro w hw
        have hveq : w = ⟨Site.pollStorageFail,
            failedFields ("Video storage failed: " ++ m), true⟩ := by
          simpa [mkWrite, RunOut.handleWith, RunOut.writes, writesOf] using hw
        subst hveq
        simp [failedFields]
      | exc m3 =>
        cases ho : env.dbOuter with
        | ok _ =>
          refine ⟨⟨false, by simp [mkWrite, RunOut.handleWith, RunOut.writes, writesOf, ho]⟩, ?_⟩
          intro w hw
          rcases (by simpa [mkWrite, RunOut.handleWith, RunOut.writes, writesOf, ho]
            using hw : w = (⟨Site.pollStorageFail,
              failedFields ("Video storage failed: " ++ m), false⟩ : WriteAttempt) ∨
              w = ⟨Site.pollOuter, failedFields m3, true⟩) with hv | hv
          · subst hv; simp [failedFields]
          · subst hv; simp [failedFields]
        | exc m4 =>
          refine ⟨⟨false, by simp [mkWrite, RunOut.handleWith, RunOut.writes, writesOf, ho]⟩, ?_⟩
          intro w hw
          rcases (by simpa [mkWrite, RunOut.handleWith, RunOut.writes, writesOf, ho]
            using hw : w = (⟨Site.pollStorageFail,
              failedFields ("Video storage failed: " ++ m), false⟩ : WriteAttempt) ∨
              w = ⟨Site.pollOuter, failedFields m3, false⟩) with hv | hv
          · subst hv; simp [failedFields]
          · subst hv; simp [failedFields]
    · rw [hdl, hup]
      cases hst : env.dbStorageFail with
      | ok _ =>
        refine ⟨⟨true, by simp [mkWrite, RunOut.handleWith, RunOut.withPre,
          RunOut.writes, writesOf]⟩, ?_⟩
        intro w hw
        have hveq : w = ⟨Site.pollStorageFail,
            failedFields ("Video storage failed: " ++ m), true⟩ := by
          simpa [mkWrite, RunOut.handleWith, RunOut.withPre, RunOut.writes, writesOf]
            using hw
        subst hveq
        simp [failedFields]
      | exc m3 =>
        cases ho : env.dbOuter with
        | ok _ =>
          refine ⟨⟨false, by simp [mkWrite, RunOut.handleWith, RunOut.withPre,
            RunOut.writes, writesOf, ho]⟩, ?_⟩
          intro w hw
          rcases (by simpa [mkWrite, RunOut.handleWith, RunOut.withPre, RunOut.writes,
            writesOf, ho] using hw : w = (⟨Site.pollStorageFail,
              failedFields ("Video storage failed: " ++ m), false⟩ : WriteAttempt) ∨
              w = ⟨Site.pollOuter, failedFields m3, true⟩) with hv | hv
          · subst hv; simp [failedFields]
          · subst hv; simp [failedFields]
        | exc m4 =>
          refine ⟨⟨false, by simp [mkWrite, RunOut.handleWith, RunOut.withPre,
            RunOut.writes, writesOf, ho]⟩, ?_⟩
          intro w hw
          rcases (by simpa [mkWrite, RunOut.handleWith, RunOut.withPre, RunOut.writes,
            writesOf, ho] using hw : w = (⟨Site.pollStorageFail,
              failedFields ("Video storage failed: " ++ m), false⟩ : WriteAttempt) ∨
              w = ⟨Site.pollOuter, failedFields m3, false⟩) with hv | hv
          · subst hv; simp [failedFields]
          · subst hv; simp [failedFields]
  · obtain ⟨sd, hsd, hcomp⟩ := hrn
    obtain ⟨f, hfeq⟩ : ∃ f, renv.fuel - rn = f + 1 := ⟨renv.fuel - rn - 1, by omega⟩
    have hinner : pollRemixInner renv rDbId rPrompt 0 renv.fuel =
        pollRemixCompleted renv rDbId rPrompt := by
      rw [pollRemixInner_skip renv rDbId rPrompt rn 0 renv.fuel
        (fun k hk => by rw [Nat.zero_add]; exact hrpre k hk) (by omega)]
      rw [Nat.zero_add, hfeq, pollRemixInner_succ, hsd]
      simp only [hcomp, if_pos]
    unfold poll_and_save_remix
    rw [hinner]
    unfold pollRemixCompleted
    rcases hrsf with hdl | ⟨b, hdl, hls, hup⟩
    · rw [hdl]
      cases ho : renv.dbOuter with
      | ok _ =>
        refine ⟨⟨true, by simp [mkWrite, RunOut.handleWith, RunOut.writes, writesOf, ho]⟩, ?_⟩
        intro w hw
        have hveq : w = ⟨Site.remixOuter, failedFields rm, true⟩ := by
          simpa [mkWrite, RunOut.handleWith, RunOut.writes, writesOf, ho] using hw
        subst hveq
        simp [failedFields]
      | exc m4 =>
        refine ⟨⟨false, by simp [mkWrite, RunOut.handleWith, RunOut.writes, writesOf, ho]⟩, ?_⟩
        intro w hw
        have hveq : w = ⟨Site.remixOuter, failedFields rm, false⟩ := by
          simpa [mkWrite, RunOut.handleWith, RunOut.writes, writesOf, ho] using hw
        subst hveq
        simp [failedFields]
    · rw [hdl, hls, hup]
      cases ho : renv.dbOuter with
      | ok _ =>
        refine ⟨⟨true, by simp [mkWrite, RunOut.handleWith, RunOut.writes, writesOf, ho]⟩, ?_⟩
        intro w hw
        have hveq : w = ⟨Site.remixOuter, failedFields rm, true⟩ := by
          simpa [mkWrite, RunOut.handleWith, RunOut.writes, writesOf, ho] using hw
        subst hveq
        simp [failedFields]
      | exc m4 =>
        refine ⟨⟨false, by simp [mkWrite, RunOut.handleWith, RunOut.writes, writesOf, ho]⟩, ?_⟩
        intro w hw
        have hveq : w = ⟨Site.remixOuter, failedFields rm, false⟩ := by
          simpa [mkWrite, RunOut.handleWith, RunOut.writes, writesOf, ho] using hw
        subst hveq
        simp [failedFields]

/-- Witness video poll oracle for the storage-failure case: completed on the
first poll, the content download raises. -/
def pollEnvStorageFailW : PollEnv :=
  ⟨fun _ _ => ExcRes.ok (respW (some "completed") none), 2,
    ExcRes.exc "boom", ExcRes.ok "U", ExcRes.ok "T",
    ExcRes.ok (), ExcRes.ok (), ExcRes.ok (), ExcRes.ok (), ExcRes.ok ()⟩

/-- Witness remix poll oracle: completed on the first poll, download raises. -/
def remixPollEnvStorageFailW : RemixPollEnv :=
  ⟨fun _ _ => ExcRes.ok (respW (some "completed") none), 2,
    ExcRes.exc "rboom", ExcRes.ok (), ExcRes.ok "U", ExcRes.ok (), ExcRes.ok ()⟩

/-- Witness for `c8_storage_failure_fails_job`: concrete completed-then-
download-failure runs for both pollers. -/
theorem c8_storage_failure_fails_job_witness :
    (∃ b, (poll_and_save_video pollEnvStorageFailW "db1" "P").writes.head? =
      some ⟨Site.pollStorageFail, failedFields ("Video storage failed: " ++ "boom"), b⟩) ∧
    (∃ b, (⟨Site.remixOuter, failedFields "rboom", b⟩ : WriteAttempt) ∈
      (poll_and_save_remix remixPollEnvStorageFailW "db2" "R").writes) := by
  have h := c8_storage_failure_fails_job pollEnvStorageFailW remixPollEnvStorageFailW
    "db1" "db2" "P" "R" "boom" "rboom" 0 0
    (fun k hk => absurd hk (by omega))
    ⟨⟨some "completed", none⟩, rfl, rfl⟩
    (by decide)
    (Or.inl rfl)
    (fun k hk => absurd hk (by omega))
    ⟨⟨some "completed", none⟩, rfl, rfl⟩
    (by decide)
    (Or.inl rfl)
  exact ⟨h.1.1, h.2.1⟩

theorem requestWithRetryGo_succ (att : Nat → ExcRes HttpResp) (i fuel : Nat) :
    requestWithRetryGo att i (fuel + 1) =
      match att i with
      | ExcRes.ok r => ExcRes.ok r
      | ExcRes.exc m =>
        if fuel = 0 then ExcRes.exc m else requestWithRetryGo att (i + 1) fuel := rfl

/-- Witness poll oracle for a persistent transport failure: every request
attempt of every fetch raises, remote status never observed, ample fuel
remaining. -/
def pollEnvNetFailW : PollEnv :=
  ⟨fun _ _ => ExcRes.exc "connection reset", 5,
    ExcRes.ok "B", ExcRes.ok "U", ExcRes.ok "T",
    ExcRes.ok (), ExcRes.ok (), ExcRes.ok (), ExcRes.ok (), ExcRes.ok ()⟩

/-- C5 counterexample: with transient network errors on every request
attempt (remote status never terminal, four loop iterations of fuel left),
the first status fetch exhausts its 3 request attempts, raises, and
`poll_and_save_video` immediately marks the job failed — the loop neither
retries at loop level nor waits for `maxWaitDuration`, refuting the claim
that a raised fetch error never causes a failed job. -/
theorem c5_counterexample :
    (poll_and_save_video pollEnvNetFailW "db1" "P").writes =
      [⟨Site.pollOuter,
        failedFields ("OpenAI video status check failed: " ++ "connection reset"),
        true⟩] ∧
    WriteAttempt.isFailedWrite ⟨Site.pollOuter,
      failedFields ("OpenAI video status check failed: " ++ "connection reset"),
      true⟩ = true := by
  exact ⟨rfl, rfl⟩

/-- C5 (amended): transient network errors during polling are retried with
backoff only INSIDE a single status fetch, up to `request_with_retry`'s 3
attempts — an error followed by a success within those attempts yields the
successful response and (for a non-terminal status) the loop simply
continues; but a fetch whose 3 attempts all fail raises, and the poll loop
then ends by marking the job failed with that fetch error, even though
`maxWaitDuration` is not exhausted and no terminal remote status was seen. -/
theorem c5_fetch_retry_and_abort
    (att att2 : Nat → ExcRes HttpResp)
    (env : PollEnv) (dbId prompt : String) (n : Nat) (msg : String) :
    (∀ (e : String) (r : HttpResp), att 0 = ExcRes.exc e → att 1 = ExcRes.ok r →
      request_with_retry att = ExcRes.ok r) ∧
    (∀ (e f : String) (r : HttpResp), att2 0 = ExcRes.exc e → att2 1 = ExcRes.exc f →
      att2 2 = ExcRes.ok r → request_with_retry att2 = ExcRes.ok r) ∧
    (∀ (i fuel : Nat), nonTerminalFetch env.statusAttempts i →
      pollVideoInner env dbId prompt i (fuel + 1) =
        pollVideoInner env dbId prompt (i + 1) fuel) ∧
    ((∀ k, k < n → nonTerminalFetch env.statusAttempts k) →
      get_video_job_status (env.statusAttempts n) = ExcRes.exc msg →
      n < env.fuel →
      ∃ b, (poll_and_save_video env dbId prompt).writes =
        [⟨Site.pollOuter, failedFields msg, b⟩]) := by
  refine ⟨?_, ?_, ?_, ?_⟩
  · intro e r h0 h1
    unfold request_with_retry
    rw [show (3 : Nat) = 2 + 1 from rfl, requestWithRetryGo_succ, h0]
    show (if (2 : Nat) = 0 then ExcRes.exc e else requestWithRetryGo att (0 + 1) 2) =
      ExcRes.ok r
    rw [if_neg (by omega : ¬(2 : Nat) = 0)]
    show requestWithRetryGo att 1 (1 + 1) = ExcRes.ok r
    rw [requestWithRetryGo_succ, h1]
  · intro e f r h0 h1 h2
    unfold request_with_retry
    rw [show (3 : Nat) = 2 + 1 from rfl, requestWithRetryGo_succ, h0]
    show (if (2 : Nat) = 0 then ExcRes.exc e else requestWithRetryGo att2 (0 + 1) 2) =
      ExcRes.ok r
    rw [if_neg (by omega : ¬(2 : Nat) = 0)]
    show requestWithRetryGo att2 1 (1 + 1) = ExcRes.ok r
    rw [requestWithRetryGo_succ, h1]
    show (if (1 : Nat) = 0 then ExcRes.exc f else requestWithRetryGo att2 (1 + 1) 1) =
      ExcRes.ok r
    rw [if_neg (by omega : ¬(1 : Nat) = 0)]
    show requestWithRetryGo att2 2 (0 + 1) = ExcRes.ok r
    rw [requestWithRetryGo_succ, h2]
  · intro i fuel hnt
    have h := pollVideoInner_skip env dbId prompt 1 i (fuel + 1)
      (fun k hk => by
        have : k = 0 := by omega
        subst this
        rw [show i + 0 = i from rfl]
        exact hnt)
      (by omega)
    simpa using h
  · intro hpre hraise hfuel
    obtain ⟨f, hfeq⟩ : ∃ f, env.fuel - n = f + 1 := ⟨env.fuel - n - 1, by omega⟩
    have hinner : pollVideoInner env dbId prompt 0 env.fuel = ⟨[], some msg⟩ := by
      rw [pollVideoInner_skip env dbId prompt n 0 env.fuel
        (fun k hk => by rw [Nat.zero_add]; exact hpre k hk) (by omega)]
      rw [Nat.zero_add, hfeq, pollVideoInner_succ, hraise]
    unfold poll_and_save_video
    rw [hinner]
    cases ho : env.dbOuter with
    | ok _ =>
      exact ⟨true, by simp [mkWrite, RunOut.handleWith, RunOut.writes, writesOf, ho]⟩
    | exc m4 =>
      exact ⟨false, by simp [mkWrite, RunOut.handleWith, RunOut.writes, writesOf, ho]⟩

/-- Witness request-attempt oracle: first attempt raises, second succeeds. -/
def attOnceFailW : Nat → ExcRes HttpResp :=
  fun k => if k = 0 then ExcRes.exc "reset" else ExcRes.ok (respW (some "queued") none)

/-- Witness request-attempt oracle: two failures then success. -/
def attTwiceFailW : Nat → ExcRes HttpResp :=
  fun k => if k ≤ 1 then ExcRes.exc "reset" else ExcRes.ok (respW (some "queued") none)

/-- Witness for `c5_fetch_retry_and_abort`: concrete retried fetches and the
concrete all-attempts-fail run that marks the job failed. -/
theorem c5_fetch_retry_and_abort_witness :
    request_with_retry attOnceFailW = ExcRes.ok (respW (some "queued") none) ∧
    request_with_retry attTwiceFailW = ExcRes.ok (respW (some "queued") none) ∧
    (∃ b, (poll_and_save_video pollEnvNetFailW "db1" "P").writes =
      [⟨Site.pollOuter,
        failedFields ("OpenAI video status check failed: " ++ "connection reset"), b⟩]) := by
  have h := c5_fetch_retry_and_abort attOnceFailW attTwiceFailW
    pollEnvNetFailW "db1" "P" 0 ("OpenAI video status check failed: " ++ "connection reset")
  refine ⟨h.1 "reset" (respW (some "queued") none) rfl rfl,
    h.2.1 "reset" "reset" (respW (some "queued") none) rfl rfl rfl,
    h.2.2.2 (fun k hk => absurd hk (by omega)) rfl (by decide)⟩

/-! ### Moderation-gate event accounting -/

/-- Moderation-check events. -/
def isModEv (e : Ev) : Bool :=
  match e with | Ev.modCheck _ => true | _ => false

/-- Sanitize-rewrite events. -/
def isSanEv (e : Ev) : Bool :=
  match e with | Ev.sanitizeCall _ => true | _ => false

/-- Events produced only by the polling/persistence layer. -/
def isPersistEv (e : Ev) : Bool :=
  match e with
  | Ev.write _ => true
  | Ev.uploadBlob _ _ => true
  | Ev.localSave _ _ => true
  | _ => false

/-- The prompts submitted to the video provider, in order. -/
def submittedPrompts (es : List Ev) : List String :=
  es.filterMap fun e => match e with | Ev.submit p => some p | _ => none

theorem pollVideoInner_persist (env : PollEnv) (dbId prompt : String) :
    ∀ fuel n, ∀ e ∈ (pollVideoInner env dbId prompt n fuel).events,
      isPersistEv e = true := by
  intro fuel
  induction fuel with
  | zero =>
    intro n e he
    rw [pollVideoInner_zero] at he
    cases hr : env.dbTimeout <;> rw [hr] at he <;> simp [mkWrite] at he <;>
      rw [he] <;> rfl
  | succ f ih =>
    intro n
    rw [pollVideoInner_succ]
    split
    · intro e he; simp at he
    · split
      · unfold pollVideoCompleted
        split
        · intro e he
          rename_i hm
          cases hr : env.dbStorageFail <;> rw [hr] at he <;> simp [mkWrite] at he <;>
            rw [he] <;> rfl
        · split
          · intro e he
            rename_i hm
            cases hr : env.dbStorageFail <;> rw [hr] at he <;>
              simp [mkWrite, RunOut.withPre] at he <;>
              rcases he with he | he <;> rw [he] <;> rfl
          · split
            · split
              · intro e he
                simp at he
                rcases he with he | he <;> rw [he] <;> rfl
              · intro e he
                cases hr : env.dbStorageFail <;> rw [hr] at he <;>
                  simp [mkWrite, RunOut.withPre] at he <;>
                  rcases he with he | he | he <;> rw [he] <;> rfl
            · split
              · intro e he
                simp at he
                rcases he with he | he <;> rw [he] <;> rfl
              · intro e he
                cases hr : env.dbStorageFail <;> rw [hr] at he <;>
                  simp [mkWrite, RunOut.withPre] at he <;>
                  rcases he with he | he | he <;> rw [he] <;> rfl
      · split
        · intro e he
          cases hr : env.dbRemoteFail <;> rw [hr] at he <;> simp [mkWrite] at he <;>
            rw [he] <;> rfl
        · exact ih (n + 1)

theorem poll_and_save_video_persist (env : PollEnv) (dbId prompt : String) :
    ∀ e ∈ (poll_and_save_video env dbId prompt).events, isPersistEv e = true := by
  intro e he
  unfold poll_and_save_video RunOut.handleWith at he
  revert he
  split
  · intro he
    exact pollVideoInner_persist env dbId prompt env.fuel 0 e he
  · intro he
    simp only [List.mem_append] at he
    rcases he with he | he
    · exact pollVideoInner_persist env dbId prompt env.fuel 0 e he
    · rename_i m _
      cases hr : env.dbOuter <;> rw [hr] at he <;> simp [mkWrite] at he <;>
        rw [he] <;> rfl

theorem countP_zero_of_persist (P : Ev → Bool)
    (hP : ∀ e, isPersistEv e = true → P e = false) (es : List Ev)
    (h : ∀ e ∈ es, isPersistEv e = true) : es.countP P = 0 := by
  rw [List.countP_eq_zero]
  intro e he
  rw [hP e (h e he)]
  simp

theorem submittedPrompts_nil_of_persist (es : List Ev)
    (h : ∀ e ∈ es, isPersistEv e = true) : submittedPrompts es = [] := by
  unfold submittedPrompts
  rw [List.filterMap_eq_nil_iff]
  intro e he
  have := h e he
  cases e <;> simp [isPersistEv] at this ⊢

theorem isSanEv_of_persist (e : Ev) (he : isPersistEv e = true) : isSanEv e = false := by
  cases e <;> simp_all [isPersistEv, isSanEv]

theorem isModEv_of_persist (e : Ev) (he : isPersistEv e = true) : isModEv e = false := by
  cases e <;> simp_all [isPersistEv, isModEv]

theorem countP_handleWith_mkWrite (P : Ev → Bool) (hP : ∀ w, P (Ev.write w) = false)
    (o : RunOut) (site : Site) (ff : String → List (String × String))
    (res : ExcRes Unit) :
    ((o.handleWith fun m => mkWrite site (ff m) res).events).countP P =
      o.events.countP P := by
  unfold RunOut.handleWith
  cases he : o.err with
  | none => rfl
  | some m =>
    cases res with
    | ok _ => simp [mkWrite, List.countP_append, List.countP_cons, hP]
    | exc e2 => simp [mkWrite, List.countP_append, List.countP_cons, hP]

theorem submitted_handleWith_mkWrite (o : RunOut) (site : Site)
    (ff : String → List (String × String)) (res : ExcRes Unit) :
    submittedPrompts ((o.handleWith fun m => mkWrite site (ff m) res).events) =
      submittedPrompts o.events := by
  unfold RunOut.handleWith
  cases he : o.err with
  | none => rfl
  | some m =>
    cases res with
    | ok _ => simp [mkWrite, submittedPrompts, List.filterMap_append]
    | exc e2 => simp [mkWrite, submittedPrompts, List.filterMap_append]

theorem submitAndPoll_gate (resize createJob : ExcRes String) (pollEnv : PollEnv)
    (dbId p : String) :
    (submitAndPoll resize createJob pollEnv dbId p).events.countP isSanEv = 0 ∧
    (submitAndPoll resize createJob pollEnv dbId p).events.countP isModEv = 0 ∧
    (∀ q ∈ submittedPrompts (submitAndPoll resize createJob pollEnv dbId p).events,
      q = p) ∧
    (∀ rb, resize = ExcRes.ok rb →
      submittedPrompts (submitAndPoll resize createJob pollEnv dbId p).events = [p]) := by
  unfold submitAndPoll
  cases hr : resize with
  | exc m =>
    refine ⟨rfl, rfl, by simp [submittedPrompts], ?_⟩
    intro rb hrb
    exact absurd hrb (by simp)
  | ok rb0 =>
    cases hcj : createJob with
    | exc m =>
      refine ⟨rfl, rfl, ?_, ?_⟩
      · intro q hq
        simpa [submittedPrompts] using hq
      · intro rb _
        rfl
    | ok jid =>
      have hsan0 := countP_zero_of_persist isSanEv isSanEv_of_persist _
        (poll_and_save_video_persist pollEnv dbId p)
      have hmod0 := countP_zero_of_persist isModEv isModEv_of_persist _
        (poll_and_save_video_persist pollEnv dbId p)
      have hsub0 := submittedPrompts_nil_of_persist _
        (poll_and_save_video_persist pollEnv dbId p)
      have hfull : submittedPrompts ([Ev.submit p] ++
          (poll_and_save_video pollEnv dbId p).events) = [p] := by
        unfold submittedPrompts at hsub0 ⊢
        rw [List.filterMap_append, hsub0]
        rfl
      refine ⟨?_, ?_, ?_, ?_⟩
      · show ([Ev.submit p] ++ (poll_and_save_video pollEnv dbId p).events).countP
          isSanEv = 0
        rw [List.countP_append, hsan0]
        rfl
      · show ([Ev.submit p] ++ (poll_and_save_video pollEnv dbId p).events).countP
          isModEv = 0
        rw [List.countP_append, hmod0]
        rfl
      · intro q hq
        have hq2 : q ∈ submittedPrompts ([Ev.submit p] ++
            (poll_and_save_video pollEnv dbId p).events) := hq
        rw [hfull] at hq2
        simpa using hq2
      · intro rb hrb
        exact hfull

theorem moderateAndSubmit_gate (sanRes resize createJob : ExcRes String)
    (pollEnv : PollEnv) (dbId fp s : String) (hs : sanRes = ExcRes.ok s) :
    (moderateAndSubmit true sanRes resize createJob pollEnv dbId fp).events.countP
      isSanEv = 1 ∧
    (moderateAndSubmit true sanRes resize createJob pollEnv dbId fp).events.countP
      isModEv = 1 ∧
    (∀ q ∈ submittedPrompts
      (moderateAndSubmit true sanRes resize createJob pollEnv dbId fp).events, q = s) ∧
    (∀ rb, resize = ExcRes.ok rb →
      submittedPrompts
        (moderateAndSubmit true sanRes resize createJob pollEnv dbId fp).events = [s]) := by
  subst hs
  obtain ⟨h1, h2, h3, h4⟩ := submitAndPoll_gate resize createJob pollEnv dbId s
  have hM : moderateAndSubmit true (ExcRes.ok s) resize createJob pollEnv dbId fp =
      (submitAndPoll resize createJob pollEnv dbId s).withPre
        [Ev.modCheck fp, Ev.sanitizeCall fp] := rfl
  rw [hM]
  have hsubeq : submittedPrompts ([Ev.modCheck fp, Ev.sanitizeCall fp] ++
      (submitAndPoll resize createJob pollEnv dbId s).events) =
      submittedPrompts (submitAndPoll resize createJob pollEnv dbId s).events := by
    unfold submittedPrompts
    rw [List.filterMap_append]
    rfl
  refine ⟨?_, ?_, ?_, ?_⟩
  · show ([Ev.modCheck fp, Ev.sanitizeCall fp] ++
      (submitAndPoll resize createJob pollEnv dbId s).events).countP isSanEv = 1
    rw [List.countP_append, h1]
    rfl
  · show ([Ev.modCheck fp, Ev.sanitizeCall fp] ++
      (submitAndPoll resize createJob pollEnv dbId s).events).countP isModEv = 1
    rw [List.countP_append, h2]
    rfl
  · intro q hq
    refine h3 q ?_
    have hq2 : q ∈ submittedPrompts ([Ev.modCheck fp, Ev.sanitizeCall fp] ++
        (submitAndPoll resize createJob pollEnv dbId s).events) := hq
    rw [hsubeq] at hq2
    exact hq2
  · intro rb hrb
    show submittedPrompts ([Ev.modCheck fp, Ev.sanitizeCall fp] ++
      (submitAndPoll resize createJob pollEnv dbId s).events) = [s]
    rw [hsubeq]
    exact h4 rb hrb

/-- Witness remix-flow oracle with a flagged moderation check. -/
def remixFlaggedW : RemixFlowEnv := ⟨true, ExcRes.ok "rjob", remixPollEnvW, ExcRes.ok ()⟩

/-- C4 counterexample: in the remix flow a flagged moderation check performs
ZERO sanitization calls and no submission at all — it raises
`ModerationError` and the job is marked failed — refuting the claim that
every variant flow reaching the gate (including remix) sanitizes once and
submits unconditionally. -/
theorem c4_counterexample :
    (run_remix_orchestration_flow remixFlaggedW "db1" "P").events.countP isSanEv = 0 ∧
    submittedPrompts (run_remix_orchestration_flow remixFlaggedW "db1" "P").events = [] ∧
    (run_remix_orchestration_flow remixFlaggedW "db1" "P").writes =
      [⟨Site.flowFail, failedFields "Remix prompt flagged by moderation", true⟩] :=
  ⟨rfl, rfl, rfl⟩

/-- C4 (amended): in the promo, fashion and ugc flows, a flagged moderation
check triggers exactly one sanitization call, whose output is what gets
submitted, with no second moderation check (exactly one check occurs); in
the remix flow, however, a flagged check performs no sanitization and no
submission — it raises `ModerationError("Remix prompt flagged by
moderation")` and the flow's handler attempts a failed write with that
message. -/
theorem c4_moderation_gate
    (env : AgentFlowEnv) (uenv : UgcFlowEnv) (renv : RemixFlowEnv)
    (dbId rDbId uDbId rPrompt : String) :
    (∀ c v a asm fp qr s, env.concept = ExcRes.ok c → env.visual = ExcRes.ok v →
      env.audio = ExcRes.ok a → env.assembly = ExcRes.ok asm →
      (_run_qa_loop env.qaScore env.qaFix asm).result = ExcRes.ok (fp, qr) →
      env.flagged = true → env.sanitize = ExcRes.ok s →
      (run_promo_orchestration_flow env dbId).events.countP isSanEv = 1 ∧
      (run_promo_orchestration_flow env dbId).events.countP isModEv = 1 ∧
      (∀ q ∈ submittedPrompts (run_promo_orchestration_flow env dbId).events, q = s) ∧
      run_fashion_orchestration_flow env dbId = run_promo_orchestration_flow env dbId) ∧
    (∀ pd fb mp fp qr s, uenv.analysis1 = ExcRes.ok pd →
      uenv.analysisQa = ExcRes.ok (true, fb) → uenv.master = ExcRes.ok mp →
      (_run_ugc_qa_loop uenv.uScore uenv.uFix mp).result = ExcRes.ok (fp, qr) →
      uenv.flagged = true → uenv.sanitize = ExcRes.ok s →
      (run_ugc_orchestration_flow uenv uDbId).events.countP isSanEv = 1 ∧
      (run_ugc_orchestration_flow uenv uDbId).events.countP isModEv = 1 ∧
      (∀ q ∈ submittedPrompts (run_ugc_orchestration_flow uenv uDbId).events, q = s)) ∧
    (renv.flagged = true →
      (run_remix_orchestration_flow renv rDbId rPrompt).events.countP isSanEv = 0 ∧
      submittedPrompts (run_remix_orchestration_flow renv rDbId rPrompt).events = [] ∧
      ∃ b, (⟨Site.flowFail, failedFields "Remix prompt flagged by moderation", b⟩ :
        WriteAttempt) ∈ (run_remix_orchestration_flow renv rDbId rPrompt).writes) := by
  refine ⟨?_, ?_, ?_⟩
  · intro c v a asm fp qr s hc hv ha hasm hqa hf hs
    have hbody : agentFlowBody env dbId =
        moderateAndSubmit true env.sanitize env.resize env.createJob env.poll dbId fp := by
      unfold agentFlowBody
      simp only [hc, hv, ha, hasm, hqa, hf]
    obtain ⟨g1, g2, g3, _⟩ := moderateAndSubmit_gate env.sanitize env.resize
      env.createJob env.poll dbId fp s hs
    unfold run_promo_orchestration_flow
    rw [hbody]
    refine ⟨?_, ?_, ?_, ?_⟩
    · rw [countP_handleWith_mkWrite isSanEv (fun w => rfl)]
      exact g1
    · rw [countP_handleWith_mkWrite isModEv (fun w => rfl)]
      exact g2
    · intro q hq
      rw [submitted_handleWith_mkWrite] at hq
      exact g3 q hq
    · unfold run_fashion_orchestration_flow run_promo_orchestration_flow
      rw [hbody]
  · intro pd fb mp fp qr s ha1 haq hm huqa hf hs
    have hbody : ugcFlowBody uenv uDbId =
        moderateAndSubmit true uenv.sanitize uenv.resize uenv.createJob uenv.poll
          uDbId fp := by
      unfold ugcFlowBody ugcFlowRest
      simp only [ha1, haq, hm, huqa, hf, if_true]
    obtain ⟨g1, g2, g3, _⟩ := moderateAndSubmit_gate uenv.sanitize uenv.resize
      uenv.createJob uenv.poll uDbId fp s hs
    unfold run_ugc_orchestration_flow
    rw [hbody]
    refine ⟨?_, ?_, ?_⟩
    · rw [countP_handleWith_mkWrite isSanEv (fun w => rfl)]
      exact g1
    · rw [countP_handleWith_mkWrite isModEv (fun w => rfl)]
      exact g2
    · intro q hq
      rw [submitted_handleWith_mkWrite] at hq
      exact g3 q hq
  · intro hfr
    have hbody : remixFlowBody renv rDbId rPrompt =
        ⟨[Ev.modCheck rPrompt], some "Remix prompt flagged by moderation"⟩ := by
      unfold remixFlowBody
      simp only [hfr, if_true]
    unfold run_remix_orchestration_flow
    rw [hbody]
    cases hdb : renv.dbFlowFail with
    | ok _ =>
      exact ⟨rfl, rfl, ⟨true, by
        simp [mkWrite, RunOut.handleWith, RunOut.writes, writesOf]⟩⟩
    | exc m =>
      exact ⟨rfl, rfl, ⟨false, by
        simp [mkWrite, RunOut.handleWith, RunOut.writes, writesOf]⟩⟩

/-- Witness flagged promo oracle. -/
def agentFlaggedW : AgentFlowEnv :=
  ⟨ExcRes.ok "c1", ExcRes.ok "v1", ExcRes.ok "a1", ExcRes.ok "asm",
    fun _ => ExcRes.ok ⟨some 90, none⟩, fun _ => ExcRes.ok "fx",
    true, ExcRes.ok "SAN", ExcRes.ok "rb", ExcRes.ok "job1",
    pollEnvRemoteFailW, ExcRes.ok ()⟩

/-- Witness flagged ugc oracle. -/
def ugcFlaggedW : UgcFlowEnv :=
  ⟨ExcRes.ok "pd", ExcRes.ok (true, none), ExcRes.ok "pd2", ExcRes.ok "mp",
    ExcRes.ok ⟨some 90, none⟩, ExcRes.ok "fx", true, ExcRes.ok "USAN",
    ExcRes.ok "rb", ExcRes.ok "job1", pollEnvRemoteFailW, ExcRes.ok ()⟩

/-- Witness for `c4_moderation_gate` at concrete flagged runs of all three
flow families. -/
theorem c4_moderation_gate_witness :
    (run_promo_orchestration_flow agentFlaggedW "db1").events.countP isSanEv = 1 ∧
    (run_ugc_orchestration_flow ugcFlaggedW "db2").events.countP isSanEv = 1 ∧
    submittedPrompts (run_remix_orchestration_flow remixFlaggedW "db3" "P").events =
      [] := by
  have h := c4_moderation_gate agentFlaggedW ugcFlaggedW remixFlaggedW
    "db1" "db3" "db2" "P"
  refine ⟨?_, ?_, ?_⟩
  · exact (h.1 "c1" "v1" "a1" "asm" "asm" ⟨some 90, none⟩ "SAN"
      rfl rfl rfl rfl (by decide) rfl rfl).1
  · exact (h.2.1 "pd" none "mp" "mp" ⟨some 90, none⟩ "USAN"
      rfl rfl rfl (by decide) rfl rfl).1
  · exact (h.2.2 rfl).2.1

/-- Witness promo oracle whose first agent raises and whose flow-level
failed write itself raises. -/
def agentCrashW : AgentFlowEnv :=
  ⟨ExcRes.exc "boom", ExcRes.ok "v1", ExcRes.ok "a1", ExcRes.ok "asm",
    fun _ => ExcRes.ok ⟨some 90, none⟩, fun _ => ExcRes.ok "fx",
    false, ExcRes.ok "san", ExcRes.ok "rb", ExcRes.ok "job1",
    pollEnvRemoteFailW, ExcRes.exc "Database error: down"⟩

/-- C7 counterexample: when the pipeline raises AND the flow's own
failed-update raises AND the dispatcher's failed-update raises, the
background task propagates the error (`err` is not `none`) after two failed
write ATTEMPTS — refuting "converts it into a single terminal failed
persistence write ... never re-raises past this boundary ... even when the
failed-write itself fails". -/
theorem c7_counterexample :
    (videoJobTrace "promo" "Promo Video" "c" "db1" agentCrashW agentCrashW ugcEnvW
      (ExcRes.exc "Database error: down")).err ≠ none ∧
    (videoJobTrace "promo" "Promo Video" "c" "db1" agentCrashW agentCrashW ugcEnvW
      (ExcRes.exc "Database error: down")).writes =
      [⟨Site.pendInsert,
        [("title", "Promo Video"), ("user_content", "c"), ("status", "pending")], true⟩,
        ⟨Site.flowFail, failedFields "boom", false⟩,
        ⟨Site.taskFail, failedFields "Database error: down", false⟩] := by
  exact ⟨by decide, rfl⟩

theorem handleWith_ok_err (o : RunOut) (site : Site)
    (ff : String → List (String × String)) :
    (o.handleWith fun m => mkWrite site (ff m) (ExcRes.ok ())).err = none := by
  unfold RunOut.handleWith
  cases he : o.err with
  | none => exact he
  | some m => rfl

/-- C7 (amended): every exception raised during background execution after
the pending record exists is caught and converted into a terminal
failed-write ATTEMPT carrying its message; when the pipeline raises and the
flow's failed-update succeeds, that is exactly one write and nothing
propagates; the flow re-raises only when its failed-update itself raises, in
which case the dispatcher makes one final failed-write attempt — background
execution propagates an error only if that final update also raises (in
particular, whenever the dispatcher's update succeeds, no error ever escapes
any of the video, remix or image background tasks), and whenever an error
does escape, no write attempt of the whole history succeeded terminally. -/
theorem c7_background_error_containment
    (videoType title content dbId prompt imgContent : String)
    (fe pe : AgentFlowEnv) (ue : UgcFlowEnv) (re : RemixFlowEnv) (ie : ImageFlowEnv)
    (tdb : ExcRes Unit) :
    ((videoJobTrace videoType title content dbId fe pe ue (ExcRes.ok ())).err = none) ∧
    ((remixJobTrace dbId prompt re (ExcRes.ok ())).err = none) ∧
    ((imageJobTrace dbId imgContent ie (ExcRes.ok ())).err = none) ∧
    (∀ m, (videoJobTrace videoType title content dbId fe pe ue tdb).err = some m →
      ∀ w ∈ (videoJobTrace videoType title content dbId fe pe ue tdb).writes,
        w.succTerm = false) ∧
    (∀ m, pe.concept = ExcRes.exc m → pe.dbFlowFail = ExcRes.ok () →
      (run_promo_orchestration_flow pe dbId).events =
        [Ev.write ⟨Site.flowFail, failedFields m, true⟩] ∧
      (run_promo_orchestration_flow pe dbId).err = none) := by
  refine ⟨?_, ?_, ?_, ?_, ?_⟩
  · exact handleWith_ok_err (processVideoDispatch videoType dbId fe pe ue)
      Site.taskFail failedFields
  · exact handleWith_ok_err (run_remix_orchestration_flow re dbId prompt)
      Site.taskFail failedFields
  · exact handleWith_ok_err (run_image_orchestration_flow ie dbId)
      Site.taskFail failedFields
  · intro m hm
    have hc : CleanOut ((process_video_task videoType dbId fe pe ue tdb).withPre
        [pendingInsertEv title content]) := by
      refine cleanOut_withPre _ _ ?_
        (cleanOut_process_video_task videoType dbId fe pe ue tdb)
      intro v hv
      have hveq : v = ⟨Site.pendInsert,
          [("title", title), ("user_content", content), ("status", "pending")],
          true⟩ := by
        simpa [writesOf, pendingInsertEv] using hv
      subst hveq
      rfl
    exact hc.2 (by
      have : (videoJobTrace videoType title content dbId fe pe ue tdb).err =
        (process_video_task videoType dbId fe pe ue tdb).err := rfl
      rw [this] at hm
      simp [RunOut.withPre, hm])
  · intro m hcm hdb
    have hbody : agentFlowBody pe dbId = ⟨[], some m⟩ := by
      unfold agentFlowBody
      simp only [hcm]
    unfold run_promo_orchestration_flow
    rw [hbody, hdb]
    exact ⟨rfl, rfl⟩

/-- Witness promo oracle whose first agent raises but whose flow-level
failed write succeeds. -/
def agentCrashOkDbW : AgentFlowEnv :=
  ⟨ExcRes.exc "boom", ExcRes.ok "v1", ExcRes.ok "a1", ExcRes.ok "asm",
    fun _ => ExcRes.ok ⟨some 90, none⟩, fun _ => ExcRes.ok "fx",
    false, ExcRes.ok "san", ExcRes.ok "rb", ExcRes.ok "job1",
    pollEnvRemoteFailW, ExcRes.ok ()⟩

/-- Witness for `c7_background_error_containment` at concrete runs: a
successful dispatcher-level update never lets an error escape, and a
pipeline crash with a healthy database converts to exactly one successful
failed write. -/
theorem c7_background_error_containment_witness :
    (videoJobTrace "promo" "Promo Video" "c" "db1" agentEnvW agentEnvW ugcEnvW
      (ExcRes.ok ())).err = none ∧
    (run_promo_orchestration_flow agentCrashOkDbW "db1").events =
      [Ev.write ⟨Site.flowFail, failedFields "boom", true⟩] := by
  have h := c7_background_error_containment "promo" "Promo Video" "c" "db1" "p" "ic"
    agentEnvW agentEnvW ugcEnvW remixEnvW imageEnvW (ExcRes.ok ())
  have h2 := c7_background_error_containment "promo" "Promo Video" "c" "db1" "p" "ic"
    agentCrashOkDbW agentCrashOkDbW ugcEnvW remixEnvW imageEnvW (ExcRes.ok ())
  exact ⟨h.1, (h2.2.2.2.2 "boom" rfl rfl).1⟩

end AIStudio
